import Mathlib

/-! Chord DHT peer (`src/src/peer.c`): packet handling.

A shallow embedding of the packet dispatcher of the peer: `handle_packet`,
`handle_packet_data`, `handle_packet_ctrl` and the helpers they call.

* The process-wide globals `self`, `pred`, `succ`, `fng_tab`, `ht`, `rt` and
  `srv->p_succ` are the fields of `Node`; every handler is a function from the
  node before the call to the node after it.
* A pointer that may be `NULL` is an `Option`.  A handler that dereferences a
  `NULL` pointer has no defined result: the model returns `none`.
* Network output is a trace of `Event`s, in program order.  An outbound
  operation is recorded together with the outcome of its `peer_connect`, so the
  trace says both what the handler set out to send and whether a connection
  was there to carry it.
* What `peer.c` takes from headers and libraries whose source is not available
  (flag masks of `packet.h`, `pseudo_hash`, `peer_connect`, `sendall`) is the
  parameter `Env`.
-/

namespace Chord

/-! ## Constants (`peer.c` 13-16, `server.h` 10-11) -/

/-- Number of finger-table slots, `#define SIZE_OF_FT 16`. -/
def SIZE_OF_FT : Nat := 16

/-- Finger-table state `#define FT_ACTIVE 0`. -/
def FT_ACTIVE : Int := 0

/-- Finger-table state `#define FT_INACTIVE (-1)`. -/
def FT_INACTIVE : Int := -1

/-- Finger-table state `#define FT_INIT 42`. -/
def FT_INIT : Int := 42

/-- Callback status `#define CB_REMOVE_CLIENT (-1)`. -/
def CB_REMOVE_CLIENT : Int := -1

/-- Callback status `#define CB_OK 0`. -/
def CB_OK : Int := 0

/-! ## Data model -/

/-- Modelled from the spec: the peer handle of `neighbour.h` (source not available),
`{node_id, host, port}`.  The host is kept as the 4-byte IPv4 value that
`peer_get_ip` returns. -/
structure peer where
  node_id : Nat
  ip : Nat
  port : Nat
deriving DecidableEq, Repr

/-- Modelled from the spec: the packet of `packet.h` (source not available).  Logical
fields `flags, hash_id, node_id, node_ip, node_port, key, value`; `key_len` and
`value_len` are the lengths of the byte lists, an absent field has length 0. -/
structure packet where
  flags : Nat
  hash_id : Nat
  node_id : Nat
  node_ip : Nat
  node_port : Nat
  key : List Nat
  value : List Nat
deriving DecidableEq, Repr

/-- The part of `struct _client` (`server.h` 15-24) the handlers read: the
inbound socket. -/
structure client where
  socket : Int
deriving DecidableEq, Repr

/-- Modelled from the spec: one entry of the local store of `hash_table.h`
(source not available): a key and its value. -/
structure htable where
  key : List Nat
  value : List Nat
deriving DecidableEq, Repr

/-- Modelled from the spec: one pending request of `requests.h` (source not
available): the client socket and the original packet. -/
structure request where
  socket : Int
  packet : packet
deriving DecidableEq, Repr

/-- The finger table, `struct _finger_table` (`peer.c` 18-22).  `ft` is the
array of `SIZE_OF_FT` peer pointers, a `NULL` slot is `none`. -/
structure finger_table where
  state : Int
  finger_count : Nat
  ft : List (Option peer)
deriving DecidableEq, Repr

/-- The globals of `peer.c` (25-37): `fng_tab`, `ht`, `rt`, `self`, `pred`,
`succ`, and the copy `srv->p_succ`.  `self` is set by `main` before the server
runs.  The pending table `rt` lists (hash_id, request) in insertion order. -/
structure Node where
  self : peer
  pred : Option peer
  succ : Option peer
  p_succ : Option peer
  fng_tab : Option finger_table
  ht : List htable
  rt : List (Nat × request)
deriving DecidableEq, Repr

/-- What `peer.c` uses from files whose source is not available: the flag masks of
`packet.h`, the key hash of `util.h`, and the outcome of the network calls
`peer_connect` (0 on success) and `sendall` (its status) during one call of the
handler. -/
structure Env where
  PKT_FLAG_CTRL : Nat
  PKT_FLAG_ACK : Nat
  PKT_FLAG_GET : Nat
  PKT_FLAG_SET : Nat
  PKT_FLAG_DEL : Nat
  PKT_FLAG_LKUP : Nat
  PKT_FLAG_RPLY : Nat
  PKT_FLAG_JOIN : Nat
  PKT_FLAG_STAB : Nat
  PKT_FLAG_NTFY : Nat
  PKT_FLAG_FNGR : Nat
  PKT_FLAG_FACK : Nat
  pseudo_hash : List Nat → Nat
  peer_connect : peer → Int
  sendall_peer : peer → packet → Int
  sendall_sock : Int → packet → Int

/-- One network action of a handler.
* `send p pack connected`: `peer_connect(p)`; when it succeeded
  (`connected`), `packet_serialize(pack)` is written to `p` and the connection
  is closed (`forward`, `answer_lookup`).
* `proxy csocket p n connected`: `peer_connect(n)`; when it succeeded, `p` is
  written to `n`, one response is read and piped to `csocket`
  (`proxy_request`).
* `reply socket rsp`: `packet_serialize(rsp)` is written to the inbound socket.
* `close socket`: `server_close_socket`. -/
inductive Event where
  | send (p : peer) (pack : packet) (connected : Bool)
  | proxy (csocket : Int) (p : packet) (n : peer) (connected : Bool)
  | reply (socket : Int) (rsp : packet)
  | close (socket : Int)
deriving DecidableEq, Repr

/-- Result of a handler: the callback status it returns, the node afterwards
and the network actions it performed. -/
structure Outcome where
  ret : Int
  st : Node
  out : List Event
deriving DecidableEq, Repr

/-! ## Helpers whose source is not available -/

/-- Modelled from the spec: `peer_is_responsible` of `neighbour.h` (source not
available).  `responsible(a, b, x)`: `x` lies in the half-open arc `(a, b]` going
clockwise, wrapping through 0 when `a > b`; if `a == b` the whole ring. -/
def peer_is_responsible (pred_id peer_id hash_id : Nat) : Bool :=
  if pred_id = peer_id then true
  else if pred_id < peer_id then decide (pred_id < hash_id ∧ hash_id ≤ peer_id)
  else decide (pred_id < hash_id ∨ hash_id ≤ peer_id)

/-- Modelled from the spec: `packet_new` of `packet.h` (source not available): a
packet with every field zero and no key or value. -/
def packet_new : packet :=
  { flags := 0, hash_id := 0, node_id := 0, node_ip := 0, node_port := 0, key := [], value := [] }

/-- Modelled from the spec: `peer_from_packet` of `neighbour.h` (source not
available): the peer a control packet names, reconstructed from
`{node_id, node_ip, node_port}`. -/
def peer_from_packet (p : packet) : peer :=
  { node_id := p.node_id, ip := p.node_ip, port := p.node_port }

/-- Modelled from the spec: `peer_get_ip` of `neighbour.h` (source not available):
the IPv4 value of a peer handle. -/
def peer_get_ip (n : peer) : Nat := n.ip

/-- Modelled from the spec: `htable_get` of `hash_table.h` (source not available):
the stored entry of a key, if any. -/
def htable_get (ht : List htable) (key : List Nat) : Option htable :=
  ht.find? (fun e => e.key == key)

/-- Modelled from the spec: `htable_set` of `hash_table.h` (source not available):
insert-or-replace. -/
def htable_set (ht : List htable) (key value : List Nat) : List htable :=
  { key := key, value := value } :: ht.filter (fun e => !(e.key == key))

/-- Modelled from the spec: `htable_delete` of `hash_table.h` (source not
available): removes the key; the status is 0 (success) iff the key existed. -/
def htable_delete (ht : List htable) (key : List Nat) : Int × List htable :=
  (if (htable_get ht key).isSome then 0 else -1, ht.filter (fun e => !(e.key == key)))

/-- Modelled from the spec: `add_request` of `requests.h` (source not available):
appends `(socket, packet)` to the list of `hash_id`. -/
def add_request (rt : List (Nat × request)) (hash_id : Nat) (socket : Int) (p : packet) :
    List (Nat × request) :=
  rt ++ [(hash_id, { socket := socket, packet := p })]

/-- Modelled from the spec: `get_requests` of `requests.h` (source not available):
the pending requests of `hash_id`, in insertion order. -/
def get_requests (rt : List (Nat × request)) (hash_id : Nat) : List request :=
  (rt.filter (fun e => e.1 == hash_id)).map (fun e => e.2)

/-- Modelled from the spec: `clear_requests` of `requests.h` (source not available):
removes the whole list of `hash_id`. -/
def clear_requests (rt : List (Nat × request)) (hash_id : Nat) : List (Nat × request) :=
  rt.filter (fun e => !(e.1 == hash_id))

/-! ## `peer.c` -/

/-- `forward` (`peer.c` 46-62): connect to `p`; without a connection return -1,
else send the serialized packet and return the status of `sendall`. -/
def forward (E : Env) (p : peer) (pack : packet) : Int × List Event :=
  if E.peer_connect p ≠ 0 then (-1, [Event.send p pack false])
  else (E.sendall_peer p pack, [Event.send p pack true])

/-- `proxy_request` (`peer.c` 73-96): connect to `n`; without a connection
return `CB_REMOVE_CLIENT`; else send `p`, pipe the response to `csocket` and
return `CB_REMOVE_CLIENT`. -/
def proxy_request (E : Env) (csocket : Int) (p : packet) (n : peer) : Int × List Event :=
  if E.peer_connect n ≠ 0 then (CB_REMOVE_CLIENT, [Event.proxy csocket p n false])
  else (CB_REMOVE_CLIENT, [Event.proxy csocket p n true])

/-- `lookup_peer` (`peer.c` 104-118): build a `CTRL|LKUP` packet for `hash_id`
(a `uint16_t` parameter) that names `self`, and `forward` it to `succ`.  The
status of `forward` is dropped, 0 is returned.  `succ == NULL` is dereferenced
by `forward`. -/
def lookup_peer (E : Env) (s : Node) (hash_id : Nat) : Option (Int × List Event) :=
  let lkp : packet :=
    { packet_new with
      flags := E.PKT_FLAG_CTRL ||| E.PKT_FLAG_LKUP
      hash_id := hash_id % 65536
      node_id := s.self.node_id
      node_port := s.self.port
      node_ip := peer_get_ip s.self }
  match s.succ with
  | none => none
  | some sc => some (0, (forward E sc lkp).2)

/-- `handle_own_request` (`peer.c` 127-180): answer a request from the local
store and reply on the client socket. -/
def handle_own_request (E : Env) (s : Node) (c : client) (p : packet) : Outcome :=
  if p.flags &&& E.PKT_FLAG_GET ≠ 0 then
    match htable_get s.ht p.key with
    | some entry =>
      { ret := CB_REMOVE_CLIENT, st := s,
        out := [Event.reply c.socket
          { packet_new with
            flags := E.PKT_FLAG_GET ||| E.PKT_FLAG_ACK, key := entry.key, value := entry.value }] }
    | none =>
      { ret := CB_REMOVE_CLIENT, st := s,
        out := [Event.reply c.socket { packet_new with flags := E.PKT_FLAG_GET, key := p.key }] }
  else if p.flags &&& E.PKT_FLAG_SET ≠ 0 then
    { ret := CB_REMOVE_CLIENT, st := { s with ht := htable_set s.ht p.key p.value },
      out := [Event.reply c.socket
        { packet_new with flags := E.PKT_FLAG_SET ||| E.PKT_FLAG_ACK }] }
  else if p.flags &&& E.PKT_FLAG_DEL ≠ 0 then
    let r := htable_delete s.ht p.key
    { ret := CB_REMOVE_CLIENT, st := { s with ht := r.2 },
      out := [Event.reply c.socket
        { packet_new with
          flags := if r.1 = 0 then E.PKT_FLAG_DEL ||| E.PKT_FLAG_ACK else E.PKT_FLAG_DEL }] }
  else
    { ret := CB_REMOVE_CLIENT, st := s,
      out := [Event.reply c.socket
        { packet_new with
          flags := p.flags ||| E.PKT_FLAG_ACK
          key := [82, 105, 99, 107, 32, 65, 115, 116, 108, 101, 121]
          value := [78, 101, 118, 101, 114, 32, 71, 111, 110, 110, 97, 32, 71, 105, 118, 101,
                    32, 89, 111, 117, 32, 85, 112, 33, 10] }] }

/-- `answer_lookup` (`peer.c` 189-217): connect to the questioner named by
`p` and send it a `CTRL|RPLY` packet for `p->hash_id` that names `n`. -/
def answer_lookup (E : Env) (s : Node) (p : packet) (n : peer) : Outcome :=
  let questioner := peer_from_packet p
  let rsp : packet :=
    { packet_new with
      flags := E.PKT_FLAG_CTRL ||| E.PKT_FLAG_RPLY
      hash_id := p.hash_id
      node_id := n.node_id
      node_port := n.port
      node_ip := peer_get_ip n }
  if E.peer_connect questioner ≠ 0 then
    { ret := CB_REMOVE_CLIENT, st := s, out := [Event.send questioner rsp false] }
  else
    { ret := CB_REMOVE_CLIENT, st := s, out := [Event.send questioner rsp true] }

/-- `handle_packet_data` (`peer.c` 227-248).  `pred->node_id` and
`succ->node_id` are read without a `NULL` check. -/
def handle_packet_data (E : Env) (s : Node) (c : client) (p : packet) : Option Outcome :=
  let hash_id := E.pseudo_hash p.key % 65536
  match s.pred with
  | none => none
  | some pd =>
    if peer_is_responsible pd.node_id s.self.node_id hash_id then
      some (handle_own_request E s c p)
    else
      match s.succ with
      | none => none
      | some sc =>
        if peer_is_responsible s.self.node_id sc.node_id hash_id then
          some { ret := (proxy_request E c.socket p sc).1, st := s,
                 out := (proxy_request E c.socket p sc).2 }
        else
          let s1 := { s with rt := add_request s.rt hash_id c.socket p }
          match lookup_peer E s1 hash_id with
          | none => none
          | some r => some { ret := CB_OK, st := s1, out := r.2 }

/-- `build_ctrl_pkt` (`peer.c` 257-267): a control packet with sub-flag `flag`
that names peer `p`. -/
def build_ctrl_pkt (E : Env) (p : peer) (flag : Nat) : packet :=
  { packet_new with
    flags := E.PKT_FLAG_CTRL ||| flag
    node_id := p.node_id
    node_ip := peer_get_ip p
    node_port := p.port }

/-- Start of finger `i`, the expression
`(int)(self->node_id + pow(2, i)) % (int)pow(2, SIZE_OF_FT)` of `peer.c` 289,
329 and 372. -/
def finger_start (self_id i : Nat) : Nat :=
  (self_id + 2 ^ i) % 2 ^ SIZE_OF_FT

/-- The loop of `build_finger_table` (`peer.c` 287-291): one `lookup_peer` per
start, in order. -/
def lookup_all (E : Env) (s : Node) : List Nat → Option (List Event)
  | [] => some []
  | start :: rest =>
    match lookup_peer E s start with
    | none => none
    | some r =>
      match lookup_all E s rest with
      | none => none
      | some evs => some (r.2 ++ evs)

/-- `build_finger_table` (`peer.c` 272-294): replace the table by a fresh one
in state `FT_INIT` with `SIZE_OF_FT` empty slots and count 0, then look up the
start of every finger.  The `free` of an old `ACTIVE` table changes nothing
that is modelled. -/
def build_finger_table (E : Env) (s : Node) : Option (Node × List Event) :=
  let s1 := { s with
    fng_tab := some { state := FT_INIT, finger_count := 0, ft := List.replicate SIZE_OF_FT none } }
  match lookup_all E s1 ((List.range SIZE_OF_FT).map (finger_start s.self.node_id)) with
  | none => none
  | some evs => some (s1, evs)

/-- The search loop of `peer.c` 326-333: the last `i < SIZE_OF_FT` with
`finger_start < hash_id` (plain integer comparison); `none` is the initial
`-1`. -/
def closest_pred_idx (self_id hash_id : Nat) : Option Nat :=
  (List.range SIZE_OF_FT).foldl
    (fun acc i => if finger_start self_id i < hash_id then some i else acc) none

/-- The placement of `peer.c` 366-384: put the peer named by the reply into the
first slot `i` whose start equals `p->hash_id` and that is still `NULL`, count
it, and switch to `FT_ACTIVE` when the count is `SIZE_OF_FT`. -/
def place_finger (self_id : Nat) (t : finger_table) (p : packet) : finger_table :=
  let ft_peer := peer_from_packet p
  let start := p.hash_id
  let t1 : finger_table :=
    match (List.range SIZE_OF_FT).find?
        (fun i => start == finger_start self_id i && (t.ft.getD i none).isNone) with
    | some i => { t with ft := t.ft.set i (some ft_peer), finger_count := t.finger_count + 1 }
    | none => t
  if t1.finger_count = SIZE_OF_FT then { t1 with state := FT_ACTIVE } else t1

/-- The `LKUP` branch of `handle_packet_ctrl` (`peer.c` 309-357). -/
def ctrl_lkup (E : Env) (s : Node) (p : packet) : Option Outcome :=
  if (match s.fng_tab with
      | some t => decide (t.state = FT_ACTIVE)
      | none => false) then
    match s.pred with
    | none => none
    | some pd =>
      if peer_is_responsible pd.node_id s.self.node_id p.hash_id then
        some (answer_lookup E s p s.self)
      else
        match s.succ with
        | none => none
        | some sc =>
          if peer_is_responsible s.self.node_id sc.node_id p.hash_id then
            some (answer_lookup E s p sc)
          else
            match closest_pred_idx s.self.node_id p.hash_id with
            | some idx =>
              match s.fng_tab.bind (fun t => t.ft.getD idx none) with
              | none => none
              | some f => some { ret := CB_REMOVE_CLIENT, st := s, out := (forward E f p).2 }
            | none => some { ret := CB_REMOVE_CLIENT, st := s, out := [] }
  else
    match s.pred with
    | none => none
    | some pd =>
      if peer_is_responsible pd.node_id s.self.node_id p.hash_id then
        some (answer_lookup E s p s.self)
      else
        match s.succ with
        | none => none
        | some sc =>
          if peer_is_responsible s.self.node_id sc.node_id p.hash_id then
            some (answer_lookup E s p sc)
          else
            some { ret := CB_REMOVE_CLIENT, st := s, out := (forward E sc p).2 }

/-- The `RPLY` branch of `handle_packet_ctrl` (`peer.c` 359-392): finger
placement while the table is being built, then the drain of the pending
requests of `p->hash_id`. -/
def ctrl_rply (E : Env) (s : Node) (p : packet) : Option Outcome :=
  let n := peer_from_packet p
  let fng : Option finger_table :=
    match s.fng_tab with
    | some t =>
      if t.state = FT_INIT ∧ t.finger_count < SIZE_OF_FT then
        some (place_finger s.self.node_id t p)
      else some t
    | none => none
  let evs := (get_requests s.rt p.hash_id).flatMap
    (fun r => (proxy_request E r.socket r.packet n).2 ++ [Event.close r.socket])
  some { ret := CB_REMOVE_CLIENT,
         st := { s with fng_tab := fng, rt := clear_requests s.rt p.hash_id },
         out := evs }

/-- The `JOIN` branch of `handle_packet_ctrl` (`peer.c` 400-427).  The
`sleep(0.2)` before the reply changes no state. -/
def ctrl_join (E : Env) (s : Node) (p : packet) : Option Outcome :=
  match s.pred with
  | none =>
    let s1 : Node :=
      match s.succ with
      | none =>
        { s with pred := some (peer_from_packet p), succ := some (peer_from_packet p),
                 p_succ := some (peer_from_packet p) }
      | some _ => { s with pred := some (peer_from_packet p) }
    let reply_pkt := build_ctrl_pkt E s.self E.PKT_FLAG_NTFY
    some { ret := (forward E (peer_from_packet p) reply_pkt).1, st := s1,
           out := (forward E (peer_from_packet p) reply_pkt).2 }
  | some pd =>
    if peer_is_responsible pd.node_id s.self.node_id p.node_id then
      let s1 : Node := { s with pred := some (peer_from_packet p) }
      let reply_pkt := build_ctrl_pkt E s.self E.PKT_FLAG_NTFY
      some { ret := (forward E (peer_from_packet p) reply_pkt).1, st := s1,
             out := (forward E (peer_from_packet p) reply_pkt).2 }
    else
      match s.succ with
      | some sc => some { ret := (forward E sc p).1, st := s, out := (forward E sc p).2 }
      | none => some { ret := CB_REMOVE_CLIENT, st := s, out := [] }

/-- The ring-state update of the `STAB` branch (`peer.c` 433-445). -/
def stab_update (s : Node) (p : packet) : Node :=
  match s.succ with
  | none => { s with succ := some (peer_from_packet p), p_succ := some (peer_from_packet p) }
  | some _ =>
    match s.pred with
    | none => { s with pred := some (peer_from_packet p) }
    | some pd =>
      if peer_is_responsible pd.node_id s.self.node_id p.node_id then
        { s with pred := some (peer_from_packet p) }
      else s

/-- The `STAB` branch of `handle_packet_ctrl` (`peer.c` 429-460): update the
ring state, then, when `pred` is set, send a `NTFY` that names `pred` on the
inbound socket and `forward` the same packet to the peer named by `p`. -/
def ctrl_stab (E : Env) (s : Node) (c : client) (p : packet) : Option Outcome :=
  let s1 := stab_update s p
  match s1.pred with
  | some pd1 =>
    let reply_pkt := build_ctrl_pkt E pd1 E.PKT_FLAG_NTFY
    some { ret := (forward E (peer_from_packet p) reply_pkt).1, st := s1,
           out := Event.reply c.socket reply_pkt :: (forward E (peer_from_packet p) reply_pkt).2 }
  | none => some { ret := CB_REMOVE_CLIENT, st := s1, out := [] }

/-- The `NTFY` branch of `handle_packet_ctrl` (`peer.c` 462-475). -/
def ctrl_ntfy (s : Node) (p : packet) : Option Outcome :=
  match s.succ with
  | none =>
    some { ret := CB_REMOVE_CLIENT,
           st := { s with succ := some (peer_from_packet p), p_succ := some (peer_from_packet p) },
           out := [] }
  | some sc =>
    if peer_is_responsible s.self.node_id sc.node_id p.node_id then
      some { ret := CB_REMOVE_CLIENT,
             st := { s with succ := some (peer_from_packet p),
                            p_succ := some (peer_from_packet p) },
             out := [] }
    else some { ret := CB_REMOVE_CLIENT, st := s, out := [] }

/-- The `FNGR` branch of `handle_packet_ctrl` (`peer.c` 477-496): send a
`CTRL|FACK` packet on the inbound socket, then build the finger table; the
status of that `sendall` is returned. -/
def ctrl_fngr (E : Env) (s : Node) (c : client) : Option Outcome :=
  let fack_pkt : packet := { packet_new with flags := E.PKT_FLAG_CTRL ||| E.PKT_FLAG_FACK }
  match build_finger_table E s with
  | none => none
  | some r =>
    some { ret := E.sendall_sock c.socket fack_pkt, st := r.1,
           out := Event.reply c.socket fack_pkt :: r.2 }

/-- `handle_packet_ctrl` (`peer.c` 305-499): dispatch on the control sub-flag,
in the order `LKUP`, `RPLY`, `JOIN`, `STAB`, `NTFY`, `FNGR`; any other control
packet is dropped with `CB_REMOVE_CLIENT`. -/
def handle_packet_ctrl (E : Env) (s : Node) (c : client) (p : packet) : Option Outcome :=
  if p.flags &&& E.PKT_FLAG_LKUP ≠ 0 then ctrl_lkup E s p
  else if p.flags &&& E.PKT_FLAG_RPLY ≠ 0 then ctrl_rply E s p
  else if p.flags &&& E.PKT_FLAG_JOIN ≠ 0 then ctrl_join E s p
  else if p.flags &&& E.PKT_FLAG_STAB ≠ 0 then ctrl_stab E s c p
  else if p.flags &&& E.PKT_FLAG_NTFY ≠ 0 then ctrl_ntfy s p
  else if p.flags &&& E.PKT_FLAG_FNGR ≠ 0 then ctrl_fngr E s c
  else some { ret := CB_REMOVE_CLIENT, st := s, out := [] }

/-- `handle_packet` (`peer.c` 511-517): control packets go to
`handle_packet_ctrl`, all others to `handle_packet_data`. -/
def handle_packet (E : Env) (s : Node) (c : client) (p : packet) : Option Outcome :=
  if p.flags &&& E.PKT_FLAG_CTRL ≠ 0 then handle_packet_ctrl E s c p
  else handle_packet_data E s c p

/-! ## Concrete inputs for the examples -/

/-- An environment for the examples.  The data masks are the ones the spec
lists (`CTRL=0x80, ACK=0x40, GET=0x01, SET=0x02, DEL=0x04`), the control
sub-flags are one bit each, the hash of a key is the sum of its bytes, every
connect succeeds and every send returns 0. -/
def env0 : Env :=
  { PKT_FLAG_CTRL := 0x80, PKT_FLAG_ACK := 0x40, PKT_FLAG_GET := 0x01, PKT_FLAG_SET := 0x02,
    PKT_FLAG_DEL := 0x04, PKT_FLAG_LKUP := 0x01, PKT_FLAG_RPLY := 0x02, PKT_FLAG_STAB := 0x04,
    PKT_FLAG_NTFY := 0x08, PKT_FLAG_JOIN := 0x10, PKT_FLAG_FACK := 0x20, PKT_FLAG_FNGR := 0x40,
    pseudo_hash := fun key => key.sum,
    peer_connect := fun _ => 0,
    sendall_peer := fun _ _ => 0,
    sendall_sock := fun _ _ => 0 }

/-- Peer with id 10 on port 4999. -/
def peer10 : peer := { node_id := 10, ip := 2130706433, port := 4999 }

/-- Peer A of the spec scenarios: id 100 on port 5000. -/
def peerA : peer := { node_id := 100, ip := 2130706433, port := 5000 }

/-- Peer B of the spec scenarios: id 200 on port 5001. -/
def peerB : peer := { node_id := 200, ip := 2130706433, port := 5001 }

/-- A node with the given `self`, `pred` and `succ`, no finger table, an empty
store and no pending request. -/
def mkNode (self : peer) (pred succ : Option peer) : Node :=
  { self := self, pred := pred, succ := succ, p_succ := succ, fng_tab := none, ht := [], rt := [] }

/-- A data packet with the given flags, key and value. -/
def dataPkt (flags : Nat) (key value : List Nat) : packet :=
  { packet_new with flags := flags, key := key, value := value }

/-- A control packet with the given flags that names peer `q`, for `hash_id`. -/
def ctrlPkt (flags : Nat) (q : peer) (hash_id : Nat) : packet :=
  { packet_new with
    flags := flags, hash_id := hash_id, node_id := q.node_id, node_ip := q.ip,
    node_port := q.port }

/-- Handling a sequence of packets, one call of `handle_packet` after the
other as the server loop does; each call has its own environment (network
outcomes), client and packet.  `none` when some call has no defined result. -/
def run (s : Node) : List (Env × client × packet) → Option Node
  | [] => some s
  | x :: rest =>
    match handle_packet x.1 s x.2.1 x.2.2 with
    | none => none
    | some o => run o.st rest

/-- Number of non-empty slots of a finger table. -/
def filled_slots (t : finger_table) : Nat :=
  (t.ft.filter (fun slot => slot.isSome)).length

/-- The finger table of the peer with id 100 in the ring 10, 100, 200, fully
built: the starts 101 .. 164 belong to peer 200, the starts 228 .. 32868 to
peer 10. -/
def ftA : finger_table :=
  { state := FT_ACTIVE, finger_count := 16,
    ft := List.replicate 7 (some peerB) ++ List.replicate 9 (some peer10) }

/-- The peer with id 100 in the ring 10, 100, 200 with its finger table
`ACTIVE`. -/
def nodeActive : Node :=
  { mkNode peerA (some peer10) (some peerB) with fng_tab := some ftA }

/-- Peer A (id 100) with `pred` = peer 10 and `succ` = B right after a `FNGR`:
the finger table is in state `INIT` with 16 empty slots. -/
def nodeInit : Node :=
  { mkNode peerA (some peer10) (some peerB) with
    fng_tab := some { state := FT_INIT, finger_count := 0, ft := List.replicate 16 none } }

/-- The finger-table invariant: the table has `SIZE_OF_FT` slots,
`finger_count` is the number of non-empty slots, and `ACTIVE` only with
`finger_count = SIZE_OF_FT`. -/
def ft_inv (s : Node) : Prop :=
  ∀ t, s.fng_tab = some t →
    t.ft.length = SIZE_OF_FT ∧ t.finger_count = filled_slots t ∧
      (t.state = FT_ACTIVE → t.finger_count = SIZE_OF_FT)

/-- The peer with id 10 in the ring 10, 100, 200 (spec scenario 3) with three
pending client requests: two for hash 150 (sockets 7 and 9) and, between them,
one for hash 160 (socket 8). -/
def nodePending : Node :=
  { mkNode peer10 (some peerB) (some peerA) with
    rt := [(150, { socket := 7, packet := dataPkt 0x01 [150] [] }),
           (160, { socket := 8, packet := dataPkt 0x01 [160] [] }),
           (150, { socket := 9, packet := dataPkt 0x02 [150] [1] })] }

/-- A peer with the given id (port 6000 + id mod 1000). -/
def peerId (id : Nat) : peer := { node_id := id, ip := 2130706433, port := 6000 + id % 1000 }

/-- The peer with id 40000 in the ring 30000, 40000, 45000, 49000, 60000 with
its finger table fully built: the starts 40001 .. 44096 (slots 0 .. 12) belong
to peer 45000, start 48192 (slot 13) to peer 49000, start 56384 (slot 14) to
peer 60000 and start 7232 (slot 15, wrapped) to peer 30000. -/
def nodeWrap : Node :=
  { mkNode (peerId 40000) (some (peerId 30000)) (some (peerId 45000)) with
    fng_tab := some
      { state := FT_ACTIVE, finger_count := 16,
        ft := List.replicate 13 (some (peerId 45000)) ++
              [some (peerId 49000), some (peerId 60000), some (peerId 30000)] } }

/-- The peer with id 100 in the ring 50, 100, 200 with its finger table fully
built: the starts 101 .. 164 (slots 0 .. 6) belong to peer 200, the starts
228 .. 32868 (slots 7 .. 15) to peer 50. -/
def nodeDrop : Node :=
  { mkNode peerA (some (peerId 50)) (some peerB) with
    fng_tab := some
      { state := FT_ACTIVE, finger_count := 16,
        ft := List.replicate 7 (some peerB) ++ List.replicate 9 (some (peerId 50)) } }

/-! ## Basic facts about the helpers -/

theorem forward_out (E : Env) (p : peer) (pack : packet) :
    (forward E p pack).2 = [Event.send p pack (decide (E.peer_connect p = 0))] := by
  unfold forward
  by_cases h : E.peer_connect p = 0 <;> simp [h]

theorem forward_ret (E : Env) (p : peer) (pack : packet) :
    (forward E p pack).1 = if E.peer_connect p = 0 then E.sendall_peer p pack else -1 := by
  unfold forward
  by_cases h : E.peer_connect p = 0 <;> simp [h]

theorem proxy_request_out (E : Env) (csocket : Int) (p : packet) (n : peer) :
    (proxy_request E csocket p n).2
      = [Event.proxy csocket p n (decide (E.peer_connect n = 0))] := by
  unfold proxy_request
  by_cases h : E.peer_connect n = 0 <;> simp [h]

theorem proxy_request_ret (E : Env) (csocket : Int) (p : packet) (n : peer) :
    (proxy_request E csocket p n).1 = CB_REMOVE_CLIENT := by
  unfold proxy_request
  by_cases h : E.peer_connect n = 0 <;> simp [h]

theorem answer_lookup_eq (E : Env) (s : Node) (p : packet) (n : peer) :
    answer_lookup E s p n =
      { ret := CB_REMOVE_CLIENT, st := s,
        out := [Event.send (peer_from_packet p)
          { flags := E.PKT_FLAG_CTRL ||| E.PKT_FLAG_RPLY, hash_id := p.hash_id,
            node_id := n.node_id, node_ip := n.ip, node_port := n.port, key := [], value := [] }
          (decide (E.peer_connect (peer_from_packet p) = 0))] } := by
  unfold answer_lookup
  by_cases h : E.peer_connect (peer_from_packet p) = 0 <;>
    simp [h, packet_new, peer_get_ip]

theorem handle_own_request_ret (E : Env) (s : Node) (c : client) (p : packet) :
    (handle_own_request E s c p).ret = CB_REMOVE_CLIENT := by
  unfold handle_own_request
  split
  · split <;> rfl
  · split
    · rfl
    · split <;> rfl

theorem get_requests_add_same (rt : List (Nat × request)) (h : Nat) (sock : Int) (p : packet) :
    get_requests (add_request rt h sock p) h
      = get_requests rt h ++ [{ socket := sock, packet := p }] := by
  simp [get_requests, add_request, List.filter_append]

theorem get_requests_add_other (rt : List (Nat × request)) (h h2 : Nat) (sock : Int)
    (p : packet) (hne : h2 ≠ h) :
    get_requests (add_request rt h sock p) h2 = get_requests rt h2 := by
  simp [get_requests, add_request, List.filter_append, List.filter_cons, Ne.symm hne]

/-! ## Routing of data packets -/

/-- C1: with `pred` and `succ` set and `h` the hash of the key,
`handle_packet_data` (1) answers from the local store and returns
`CB_REMOVE_CLIENT` when `responsible(pred.id, self.id, h)`; (2) otherwise, when
`responsible(self.id, succ.id, h)`, proxies the unchanged packet to `succ`,
returns `CB_REMOVE_CLIENT` and leaves the node (pending table included)
unchanged; (3) otherwise appends `(client socket, p)` to the pending bucket of
`h` (the other buckets are unchanged), performs exactly one send, of a
`CTRL|LKUP` packet to `succ` with `hash_id = h` that names `self`, and returns
`CB_OK`. -/
theorem handle_packet_data_routes (E : Env) (s : Node) (c : client) (p : packet)
    (pd sc : peer) (hpred : s.pred = some pd) (hsucc : s.succ = some sc) :
    (peer_is_responsible pd.node_id s.self.node_id (E.pseudo_hash p.key % 65536) = true →
      handle_packet_data E s c p = some (handle_own_request E s c p) ∧
      (handle_own_request E s c p).ret = CB_REMOVE_CLIENT) ∧
    (peer_is_responsible pd.node_id s.self.node_id (E.pseudo_hash p.key % 65536) = false →
      peer_is_responsible s.self.node_id sc.node_id (E.pseudo_hash p.key % 65536) = true →
      handle_packet_data E s c p =
        some { ret := CB_REMOVE_CLIENT, st := s,
               out := [Event.proxy c.socket p sc (decide (E.peer_connect sc = 0))] }) ∧
    (peer_is_responsible pd.node_id s.self.node_id (E.pseudo_hash p.key % 65536) = false →
      peer_is_responsible s.self.node_id sc.node_id (E.pseudo_hash p.key % 65536) = false →
      ∃ o, handle_packet_data E s c p = some o ∧ o.ret = CB_OK ∧
        o.st = { s with rt := add_request s.rt (E.pseudo_hash p.key % 65536) c.socket p } ∧
        get_requests o.st.rt (E.pseudo_hash p.key % 65536)
          = get_requests s.rt (E.pseudo_hash p.key % 65536)
              ++ [{ socket := c.socket, packet := p }] ∧
        (∀ h2, h2 ≠ E.pseudo_hash p.key % 65536 →
          get_requests o.st.rt h2 = get_requests s.rt h2) ∧
        o.out = [Event.send sc
          { flags := E.PKT_FLAG_CTRL ||| E.PKT_FLAG_LKUP,
            hash_id := E.pseudo_hash p.key % 65536,
            node_id := s.self.node_id, node_ip := s.self.ip, node_port := s.self.port,
            key := [], value := [] }
          (decide (E.peer_connect sc = 0))]) := by
  refine ⟨?_, ?_, ?_⟩
  · intro h1
    exact ⟨by simp [handle_packet_data, hpred, h1], handle_own_request_ret E s c p⟩
  · intro h1 h2
    simp [handle_packet_data, hpred, hsucc, h1, h2, proxy_request_out, proxy_request_ret]
  · intro h1 h2
    have hh : handle_packet_data E s c p =
        some { ret := CB_OK,
               st := { s with rt := add_request s.rt (E.pseudo_hash p.key % 65536) c.socket p },
               out := [Event.send sc
                 { flags := E.PKT_FLAG_CTRL ||| E.PKT_FLAG_LKUP,
                   hash_id := E.pseudo_hash p.key % 65536,
                   node_id := s.self.node_id, node_ip := s.self.ip, node_port := s.self.port,
                   key := [], value := [] }
                 (decide (E.peer_connect sc = 0))] } := by
      simp [handle_packet_data, hpred, hsucc, h1, h2, lookup_peer, forward_out, packet_new,
        peer_get_ip]
    exact ⟨_, hh, rfl, rfl, get_requests_add_same _ _ _ _,
      fun h2 hne => get_requests_add_other _ _ _ _ _ hne, rfl⟩

/-- C1 (witness): peer B (id 200) of the two-peer ring, `pred = succ = A`
(id 100), receives `SET` for a key with hash 50: A is responsible, B proxies
the packet to A. -/
theorem handle_packet_data_routes_witness :
    (mkNode peerB (some peerA) (some peerA)).pred = some peerA ∧
    (mkNode peerB (some peerA) (some peerA)).succ = some peerA ∧
    handle_packet_data env0 (mkNode peerB (some peerA) (some peerA)) { socket := 7 }
        (dataPkt 0x02 [50] [1]) =
      some { ret := CB_REMOVE_CLIENT, st := mkNode peerB (some peerA) (some peerA),
             out := [Event.proxy 7 (dataPkt 0x02 [50] [1]) peerA true] } :=
  ⟨rfl, rfl,
    (handle_packet_data_routes env0 (mkNode peerB (some peerA) (some peerA)) { socket := 7 }
      (dataPkt 0x02 [50] [1]) peerA peerA rfl rfl).2.1 (by decide) (by decide)⟩

theorem handle_packet_data_pred_unset (E : Env) (s : Node) (c : client) (p : packet)
    (hpred : s.pred = none) : handle_packet_data E s c p = none := by
  simp [handle_packet_data, hpred]

/-- C2: on a peer with an unset neighbour `handle_packet_data` reads
`pred->node_id` through the `NULL` pointer: for the solitary peer A (id 100,
`pred = succ = NULL`) and for A with only `succ` set, handling the data packet
`SET "x" = "1"` has no defined result, so no reply is produced. -/
theorem handle_packet_data_unset_neighbour :
    (dataPkt 0x02 [120] [49]).flags &&& env0.PKT_FLAG_CTRL = 0 ∧
    handle_packet env0 (mkNode peerA none none) { socket := 7 } (dataPkt 0x02 [120] [49]) = none ∧
    handle_packet env0 (mkNode peerA none (some peerB)) { socket := 7 } (dataPkt 0x02 [120] [49])
      = none := by
  decide

/-! ## The local store -/

theorem htable_get_key (ht : List htable) (key : List Nat) (e : htable)
    (h : htable_get ht key = some e) : e.key = key := by
  have := List.find?_some h
  simpa using this

theorem htable_get_set_same (ht : List htable) (key value : List Nat) :
    htable_get (htable_set ht key value) key = some { key := key, value := value } := by
  simp [htable_get, htable_set]

theorem htable_get_delete_same (ht : List htable) (key : List Nat) :
    htable_get (htable_delete ht key).2 key = none := by
  simp [htable_get, htable_delete]

theorem handle_own_request_get_hit (E : Env) (s : Node) (c : client) (p : packet) (e : htable)
    (hg : p.flags &&& E.PKT_FLAG_GET ≠ 0) (he : htable_get s.ht p.key = some e) :
    handle_own_request E s c p =
      { ret := CB_REMOVE_CLIENT, st := s,
        out := [Event.reply c.socket
          { flags := E.PKT_FLAG_GET ||| E.PKT_FLAG_ACK, hash_id := 0, node_id := 0,
            node_ip := 0, node_port := 0, key := e.key, value := e.value }] } := by
  simp [handle_own_request, hg, he, packet_new]

theorem handle_own_request_get_miss (E : Env) (s : Node) (c : client) (p : packet)
    (hg : p.flags &&& E.PKT_FLAG_GET ≠ 0) (he : htable_get s.ht p.key = none) :
    handle_own_request E s c p =
      { ret := CB_REMOVE_CLIENT, st := s,
        out := [Event.reply c.socket
          { flags := E.PKT_FLAG_GET, hash_id := 0, node_id := 0,
            node_ip := 0, node_port := 0, key := p.key, value := [] }] } := by
  simp [handle_own_request, hg, he, packet_new]

theorem handle_own_request_set (E : Env) (s : Node) (c : client) (p : packet)
    (hg : p.flags &&& E.PKT_FLAG_GET = 0) (hs : p.flags &&& E.PKT_FLAG_SET ≠ 0) :
    handle_own_request E s c p =
      { ret := CB_REMOVE_CLIENT, st := { s with ht := htable_set s.ht p.key p.value },
        out := [Event.reply c.socket
          { flags := E.PKT_FLAG_SET ||| E.PKT_FLAG_ACK, hash_id := 0, node_id := 0,
            node_ip := 0, node_port := 0, key := [], value := [] }] } := by
  simp [handle_own_request, hg, hs, packet_new]

theorem handle_own_request_del (E : Env) (s : Node) (c : client) (p : packet)
    (hg : p.flags &&& E.PKT_FLAG_GET = 0) (hs : p.flags &&& E.PKT_FLAG_SET = 0)
    (hd : p.flags &&& E.PKT_FLAG_DEL ≠ 0) :
    handle_own_request E s c p =
      { ret := CB_REMOVE_CLIENT, st := { s with ht := (htable_delete s.ht p.key).2 },
        out := [Event.reply c.socket
          { flags := if (htable_get s.ht p.key).isSome then E.PKT_FLAG_DEL ||| E.PKT_FLAG_ACK
                     else E.PKT_FLAG_DEL,
            hash_id := 0, node_id := 0, node_ip := 0, node_port := 0, key := [],
            value := [] }] } := by
  cases hk : htable_get s.ht p.key <;>
    simp [handle_own_request, hg, hs, hd, packet_new, htable_delete, hk]

theorem handle_packet_data_own (E : Env) (s : Node) (c : client) (p : packet) (pd : peer)
    (hpred : s.pred = some pd)
    (h1 : peer_is_responsible pd.node_id s.self.node_id (E.pseudo_hash p.key % 65536) = true) :
    handle_packet_data E s c p = some (handle_own_request E s c p) := by
  simp [handle_packet_data, hpred, h1]

theorem handle_packet_of_data (E : Env) (s : Node) (c : client) (p : packet)
    (h : p.flags &&& E.PKT_FLAG_CTRL = 0) :
    handle_packet E s c p = handle_packet_data E s c p := by
  simp [handle_packet, h]

theorem handle_packet_of_ctrl (E : Env) (s : Node) (c : client) (p : packet)
    (h : p.flags &&& E.PKT_FLAG_CTRL ≠ 0) :
    handle_packet E s c p = handle_packet_ctrl E s c p := by
  simp [handle_packet, h]

/-- C3: `handle_own_request` always returns `CB_REMOVE_CLIENT` and sends one
reply on the client socket.  `GET`, key stored: flags `GET|ACK` with the stored
key (which is the requested key) and value, store unchanged.  `GET`, key
absent: flags `GET`, the key of `p`, no value, store unchanged.  `SET` (no
`GET`): flags `SET|ACK`, the store maps the key to the value afterwards.  `DEL`
(no `GET`, no `SET`): flags `DEL|ACK` if the key existed and `DEL` otherwise,
the key is absent afterwards.  Any other flags: flags `p.flags|ACK`. -/
theorem handle_own_request_spec (E : Env) (s : Node) (c : client) (p : packet) :
    (handle_own_request E s c p).ret = CB_REMOVE_CLIENT ∧
    (p.flags &&& E.PKT_FLAG_GET ≠ 0 → ∀ e, htable_get s.ht p.key = some e →
      e.key = p.key ∧
      handle_own_request E s c p =
        { ret := CB_REMOVE_CLIENT, st := s,
          out := [Event.reply c.socket
            { flags := E.PKT_FLAG_GET ||| E.PKT_FLAG_ACK, hash_id := 0, node_id := 0,
              node_ip := 0, node_port := 0, key := e.key, value := e.value }] }) ∧
    (p.flags &&& E.PKT_FLAG_GET ≠ 0 → htable_get s.ht p.key = none →
      handle_own_request E s c p =
        { ret := CB_REMOVE_CLIENT, st := s,
          out := [Event.reply c.socket
            { flags := E.PKT_FLAG_GET, hash_id := 0, node_id := 0,
              node_ip := 0, node_port := 0, key := p.key, value := [] }] }) ∧
    (p.flags &&& E.PKT_FLAG_GET = 0 → p.flags &&& E.PKT_FLAG_SET ≠ 0 →
      handle_own_request E s c p =
        { ret := CB_REMOVE_CLIENT, st := { s with ht := htable_set s.ht p.key p.value },
          out := [Event.reply c.socket
            { flags := E.PKT_FLAG_SET ||| E.PKT_FLAG_ACK, hash_id := 0, node_id := 0,
              node_ip := 0, node_port := 0, key := [], value := [] }] } ∧
      htable_get (handle_own_request E s c p).st.ht p.key
        = some { key := p.key, value := p.value }) ∧
    (p.flags &&& E.PKT_FLAG_GET = 0 → p.flags &&& E.PKT_FLAG_SET = 0 →
      p.flags &&& E.PKT_FLAG_DEL ≠ 0 →
      handle_own_request E s c p =
        { ret := CB_REMOVE_CLIENT, st := { s with ht := (htable_delete s.ht p.key).2 },
          out := [Event.reply c.socket
            { flags := if (htable_get s.ht p.key).isSome then E.PKT_FLAG_DEL ||| E.PKT_FLAG_ACK
                       else E.PKT_FLAG_DEL,
              hash_id := 0, node_id := 0, node_ip := 0, node_port := 0, key := [],
              value := [] }] } ∧
      htable_get (handle_own_request E s c p).st.ht p.key = none) ∧
    (p.flags &&& E.PKT_FLAG_GET = 0 → p.flags &&& E.PKT_FLAG_SET = 0 →
      p.flags &&& E.PKT_FLAG_DEL = 0 →
      ∃ rsp, handle_own_request E s c p =
        { ret := CB_REMOVE_CLIENT, st := s, out := [Event.reply c.socket rsp] } ∧
        rsp.flags = p.flags ||| E.PKT_FLAG_ACK) := by
  refine ⟨handle_own_request_ret E s c p, ?_, ?_, ?_, ?_, ?_⟩
  · intro hg e he
    exact ⟨htable_get_key _ _ _ he, handle_own_request_get_hit E s c p e hg he⟩
  · intro hg he
    exact handle_own_request_get_miss E s c p hg he
  · intro hg hs
    refine ⟨handle_own_request_set E s c p hg hs, ?_⟩
    rw [handle_own_request_set E s c p hg hs]
    exact htable_get_set_same _ _ _
  · intro hg hs hd
    refine ⟨handle_own_request_del E s c p hg hs hd, ?_⟩
    rw [handle_own_request_del E s c p hg hs hd]
    exact htable_get_delete_same _ _
  · intro hg hs hd
    exact ⟨_, by simp [handle_own_request, hg, hs, hd]; rfl, rfl⟩

/-- C3 (witness): with `"x" = "1"` stored, `GET "x"` is answered `GET|ACK`
with key `"x"` and value `"1"`, and `DEL "x"` is answered `DEL|ACK`. -/
theorem handle_own_request_spec_witness :
    handle_own_request env0
        { mkNode peerA none none with ht := [{ key := [120], value := [49] }] }
        { socket := 7 } (dataPkt 0x01 [120] []) =
      { ret := CB_REMOVE_CLIENT,
        st := { mkNode peerA none none with ht := [{ key := [120], value := [49] }] },
        out := [Event.reply 7 (dataPkt 0x41 [120] [49])] } ∧
    handle_own_request env0
        { mkNode peerA none none with ht := [{ key := [120], value := [49] }] }
        { socket := 7 } (dataPkt 0x04 [120] []) =
      { ret := CB_REMOVE_CLIENT, st := mkNode peerA none none,
        out := [Event.reply 7 (dataPkt 0x44 [] [])] } :=
  ⟨((handle_own_request_spec env0
      { mkNode peerA none none with ht := [{ key := [120], value := [49] }] }
      { socket := 7 } (dataPkt 0x01 [120] [])).2.1 (by decide)
      { key := [120], value := [49] } (by decide)).2,
   ((handle_own_request_spec env0
      { mkNode peerA none none with ht := [{ key := [120], value := [49] }] }
      { socket := 7 } (dataPkt 0x04 [120] [])).2.2.2.2.1 (by decide) (by decide) (by decide)).1⟩

/-! ## Laws of the store as seen through `handle_packet` -/

/-- C4: on a peer that is responsible for the hash of `k` (its `pred` is set
and `responsible(pred.id, self.id, hash k)`), whatever the store holds before:
handling a `SET` packet for `(k, v)` and then a `GET` packet for `k` through
`handle_packet` gives a first reply with flags `SET|ACK` and a second reply
with flags `GET|ACK`, key `k` and value `v`. -/
theorem set_then_get (E : Env) (s : Node) (c1 c2 : client) (pset pget : packet) (pd : peer)
    (k v : List Nat) (hpred : s.pred = some pd)
    (hresp : peer_is_responsible pd.node_id s.self.node_id (E.pseudo_hash k % 65536) = true)
    (hs1 : pset.flags &&& E.PKT_FLAG_CTRL = 0) (hs2 : pset.flags &&& E.PKT_FLAG_GET = 0)
    (hs3 : pset.flags &&& E.PKT_FLAG_SET ≠ 0) (hsk : pset.key = k) (hsv : pset.value = v)
    (hg1 : pget.flags &&& E.PKT_FLAG_CTRL = 0) (hg2 : pget.flags &&& E.PKT_FLAG_GET ≠ 0)
    (hgk : pget.key = k) :
    ∃ o1 o2, handle_packet E s c1 pset = some o1 ∧ o1.ret = CB_REMOVE_CLIENT ∧
      o1.out = [Event.reply c1.socket
        { flags := E.PKT_FLAG_SET ||| E.PKT_FLAG_ACK, hash_id := 0, node_id := 0,
          node_ip := 0, node_port := 0, key := [], value := [] }] ∧
      handle_packet E o1.st c2 pget = some o2 ∧ o2.ret = CB_REMOVE_CLIENT ∧
      o2.out = [Event.reply c2.socket
        { flags := E.PKT_FLAG_GET ||| E.PKT_FLAG_ACK, hash_id := 0, node_id := 0,
          node_ip := 0, node_port := 0, key := k, value := v }] := by
  subst hsk hsv
  have e1 : handle_packet E s c1 pset = some (handle_own_request E s c1 pset) := by
    rw [handle_packet_of_data E s c1 pset hs1]
    exact handle_packet_data_own E s c1 pset pd hpred hresp
  rw [handle_own_request_set E s c1 pset hs2 hs3] at e1
  have e2 : handle_packet E { s with ht := htable_set s.ht pset.key pset.value } c2 pget =
      some { ret := CB_REMOVE_CLIENT,
             st := { s with ht := htable_set s.ht pset.key pset.value },
             out := [Event.reply c2.socket
               { flags := E.PKT_FLAG_GET ||| E.PKT_FLAG_ACK, hash_id := 0, node_id := 0,
                 node_ip := 0, node_port := 0, key := pset.key, value := pset.value }] } := by
    rw [handle_packet_of_data _ _ c2 pget hg1,
      handle_packet_data_own E { s with ht := htable_set s.ht pset.key pset.value } c2 pget pd
        hpred (by rw [hgk]; exact hresp)]
    rw [handle_own_request_get_hit E _ c2 pget { key := pset.key, value := pset.value } hg2
      (by rw [hgk]; exact htable_get_set_same _ _ _)]
  exact ⟨_, _, e1, rfl, rfl, e2, rfl, rfl⟩

/-- C4 (witness): peer A (id 100) with `pred = succ = B` (id 200) receives
`SET "2" = "7"` and then `GET "2"` (hash 50, owned by A): the replies are
`SET|ACK` and `GET|ACK` with value `"7"`. -/
theorem set_then_get_witness :
    ∃ o1 o2, handle_packet env0 (mkNode peerA (some peerB) (some peerB)) { socket := 7 }
        (dataPkt 0x02 [50] [55]) = some o1 ∧ o1.ret = CB_REMOVE_CLIENT ∧
      o1.out = [Event.reply 7 (dataPkt 0x42 [] [])] ∧
      handle_packet env0 o1.st { socket := 8 } (dataPkt 0x01 [50] []) = some o2 ∧
      o2.ret = CB_REMOVE_CLIENT ∧
      o2.out = [Event.reply 8 (dataPkt 0x41 [50] [55])] :=
  set_then_get env0 (mkNode peerA (some peerB) (some peerB)) { socket := 7 } { socket := 8 }
    (dataPkt 0x02 [50] [55]) (dataPkt 0x01 [50] []) peerB [50] [55] rfl (by decide) (by decide)
    (by decide) (by decide) rfl rfl (by decide) (by decide) rfl

/-- C5: on a peer that is responsible for the hash of `k`, whatever the store
holds before (with or without `k`): handling a `DEL` packet for `k` and then a
`GET` packet for `k` through `handle_packet` gives a `GET` reply whose flags
are exactly `GET` (no `ACK`), with key `k` and no value. -/
theorem del_then_get (E : Env) (s : Node) (c1 c2 : client) (pdel pget : packet) (pd : peer)
    (k : List Nat) (hpred : s.pred = some pd)
    (hresp : peer_is_responsible pd.node_id s.self.node_id (E.pseudo_hash k % 65536) = true)
    (hd1 : pdel.flags &&& E.PKT_FLAG_CTRL = 0) (hd2 : pdel.flags &&& E.PKT_FLAG_GET = 0)
    (hd3 : pdel.flags &&& E.PKT_FLAG_SET = 0) (hd4 : pdel.flags &&& E.PKT_FLAG_DEL ≠ 0)
    (hdk : pdel.key = k)
    (hg1 : pget.flags &&& E.PKT_FLAG_CTRL = 0) (hg2 : pget.flags &&& E.PKT_FLAG_GET ≠ 0)
    (hgk : pget.key = k) :
    ∃ o1 o2, handle_packet E s c1 pdel = some o1 ∧ o1.ret = CB_REMOVE_CLIENT ∧
      handle_packet E o1.st c2 pget = some o2 ∧ o2.ret = CB_REMOVE_CLIENT ∧
      o2.out = [Event.reply c2.socket
        { flags := E.PKT_FLAG_GET, hash_id := 0, node_id := 0,
          node_ip := 0, node_port := 0, key := k, value := [] }] := by
  subst hdk
  have e1 : handle_packet E s c1 pdel = some (handle_own_request E s c1 pdel) := by
    rw [handle_packet_of_data E s c1 pdel hd1]
    exact handle_packet_data_own E s c1 pdel pd hpred hresp
  rw [handle_own_request_del E s c1 pdel hd2 hd3 hd4] at e1
  have e2 : handle_packet E { s with ht := (htable_delete s.ht pdel.key).2 } c2 pget =
      some { ret := CB_REMOVE_CLIENT,
             st := { s with ht := (htable_delete s.ht pdel.key).2 },
             out := [Event.reply c2.socket
               { flags := E.PKT_FLAG_GET, hash_id := 0, node_id := 0,
                 node_ip := 0, node_port := 0, key := pdel.key, value := [] }] } := by
    rw [handle_packet_of_data _ _ c2 pget hg1,
      handle_packet_data_own E { s with ht := (htable_delete s.ht pdel.key).2 } c2 pget pd
        hpred (by rw [hgk]; exact hresp)]
    rw [handle_own_request_get_miss E _ c2 pget hg2
      (by rw [hgk]; exact htable_get_delete_same _ _), hgk]
  exact ⟨_, _, e1, rfl, e2, rfl, rfl⟩

/-- C5 (witness): peer A (id 100) with `pred = succ = B` holds `"2" = "7"`;
`DEL "2"` followed by `GET "2"` is answered with flags `GET` and no value. -/
theorem del_then_get_witness :
    ∃ o1 o2, handle_packet env0
        { mkNode peerA (some peerB) (some peerB) with ht := [{ key := [50], value := [55] }] }
        { socket := 7 } (dataPkt 0x04 [50] []) = some o1 ∧ o1.ret = CB_REMOVE_CLIENT ∧
      handle_packet env0 o1.st { socket := 8 } (dataPkt 0x01 [50] []) = some o2 ∧
      o2.ret = CB_REMOVE_CLIENT ∧
      o2.out = [Event.reply 8 (dataPkt 0x01 [50] [])] :=
  del_then_get env0
    { mkNode peerA (some peerB) (some peerB) with ht := [{ key := [50], value := [55] }] }
    { socket := 7 } { socket := 8 } (dataPkt 0x04 [50] []) (dataPkt 0x01 [50] []) peerB [50] rfl
    (by decide) (by decide) (by decide) (by decide) (by decide) rfl (by decide) (by decide) rfl

/-! ## Dispatch of control packets -/

theorem handle_packet_ctrl_lkup (E : Env) (s : Node) (c : client) (p : packet)
    (hl : p.flags &&& E.PKT_FLAG_LKUP ≠ 0) :
    handle_packet_ctrl E s c p = ctrl_lkup E s p := by
  simp [handle_packet_ctrl, hl]

theorem handle_packet_ctrl_join (E : Env) (s : Node) (c : client) (p : packet)
    (hl : p.flags &&& E.PKT_FLAG_LKUP = 0) (hr : p.flags &&& E.PKT_FLAG_RPLY = 0)
    (hj : p.flags &&& E.PKT_FLAG_JOIN ≠ 0) :
    handle_packet_ctrl E s c p = ctrl_join E s p := by
  simp [handle_packet_ctrl, hl, hr, hj]

theorem handle_packet_ctrl_stab (E : Env) (s : Node) (c : client) (p : packet)
    (hl : p.flags &&& E.PKT_FLAG_LKUP = 0) (hr : p.flags &&& E.PKT_FLAG_RPLY = 0)
    (hj : p.flags &&& E.PKT_FLAG_JOIN = 0) (hs : p.flags &&& E.PKT_FLAG_STAB ≠ 0) :
    handle_packet_ctrl E s c p = ctrl_stab E s c p := by
  simp [handle_packet_ctrl, hl, hr, hj, hs]

theorem handle_packet_ctrl_ntfy (E : Env) (s : Node) (c : client) (p : packet)
    (hl : p.flags &&& E.PKT_FLAG_LKUP = 0) (hr : p.flags &&& E.PKT_FLAG_RPLY = 0)
    (hj : p.flags &&& E.PKT_FLAG_JOIN = 0) (hs : p.flags &&& E.PKT_FLAG_STAB = 0)
    (hn : p.flags &&& E.PKT_FLAG_NTFY ≠ 0) :
    handle_packet_ctrl E s c p = ctrl_ntfy s p := by
  simp [handle_packet_ctrl, hl, hr, hj, hs, hn]

/-! ## NTFY -/

/-- C7: for a `NTFY` control packet that names peer `q`: if `succ` is unset,
afterwards `succ = q`; else if `responsible(self.id, succ.id, q.id)`,
afterwards `succ = q`; otherwise `succ` is unchanged.  In all three cases
`self`, `pred`, the finger table, the store and the pending table are
unchanged, no packet is emitted and `CB_REMOVE_CLIENT` is returned. -/
theorem ntfy_spec (E : Env) (s : Node) (c : client) (p : packet)
    (hc : p.flags &&& E.PKT_FLAG_CTRL ≠ 0)
    (hl : p.flags &&& E.PKT_FLAG_LKUP = 0) (hr : p.flags &&& E.PKT_FLAG_RPLY = 0)
    (hj : p.flags &&& E.PKT_FLAG_JOIN = 0) (hs : p.flags &&& E.PKT_FLAG_STAB = 0)
    (hn : p.flags &&& E.PKT_FLAG_NTFY ≠ 0) :
    ∃ o, handle_packet E s c p = some o ∧ o.ret = CB_REMOVE_CLIENT ∧ o.out = [] ∧
      o.st.self = s.self ∧ o.st.pred = s.pred ∧ o.st.fng_tab = s.fng_tab ∧
      o.st.ht = s.ht ∧ o.st.rt = s.rt ∧
      (s.succ = none → o.st.succ = some (peer_from_packet p)) ∧
      (∀ sc, s.succ = some sc →
        peer_is_responsible s.self.node_id sc.node_id (peer_from_packet p).node_id = true →
        o.st.succ = some (peer_from_packet p)) ∧
      (∀ sc, s.succ = some sc →
        peer_is_responsible s.self.node_id sc.node_id (peer_from_packet p).node_id = false →
        o.st.succ = some sc) := by
  rw [handle_packet_of_ctrl E s c p hc, handle_packet_ctrl_ntfy E s c p hl hr hj hs hn]
  rcases s with ⟨self, pred, succ, psucc, fng, ht, rt⟩
  unfold ctrl_ntfy
  cases succ with
  | none => simp
  | some sc =>
    by_cases h1 : peer_is_responsible self.node_id sc.node_id p.node_id = true
    · simp [h1, peer_from_packet]
    · simp [h1, peer_from_packet]

/-- C7 (witness): spec scenario 4, second half.  B (id 200) with no neighbour
receives `NTFY` naming A (id 100) and sets `succ = A`; nothing is sent. -/
theorem ntfy_spec_witness :
    ∃ o, handle_packet env0 (mkNode peerB none none) { socket := 7 } (ctrlPkt 0x88 peerA 0)
        = some o ∧ o.ret = CB_REMOVE_CLIENT ∧ o.out = [] ∧ o.st.pred = none ∧
      o.st.succ = some peerA := by
  obtain ⟨o, h, hret, hout, -, hpred, -, -, -, h1, -, -⟩ :=
    ntfy_spec env0 (mkNode peerB none none) { socket := 7 } (ctrlPkt 0x88 peerA 0)
      (by decide) (by decide) (by decide) (by decide) (by decide) (by decide)
  exact ⟨o, h, hret, hout, hpred, h1 rfl⟩

/-! ## STAB -/

/-- C8 (counterexample): peer A (id 100) with both neighbours unset receives a
`STAB` from B (id 200).  Afterwards `succ = B` but `pred` is still unset: the
peer does not adopt B as both `succ` and `pred` in a single `STAB`. -/
theorem stab_both_unset_counterexample :
    (mkNode peerA none none).pred = none ∧ (mkNode peerA none none).succ = none ∧
    ¬ ∃ o, handle_packet env0 (mkNode peerA none none) { socket := 7 } (ctrlPkt 0x84 peerB 0)
          = some o ∧
        o.st.succ = some peerB ∧ o.st.pred = some peerB := by
  refine ⟨rfl, rfl, ?_⟩
  rintro ⟨o, h, -, hpred⟩
  have h0 : handle_packet env0 (mkNode peerA none none) { socket := 7 } (ctrlPkt 0x84 peerB 0)
      = some { ret := CB_REMOVE_CLIENT,
               st := { mkNode peerA none none with succ := some peerB, p_succ := some peerB },
               out := [] } := by
    decide
  rw [h0] at h
  cases h
  exact absurd hpred (by decide)

/-- C8 (amended): for a `STAB` control packet from peer `q` the ring state is
updated by the first case that applies: if `succ` was unset, `succ = q` and
`pred` is unchanged; else if `pred` was unset, `pred = q` and `succ` is
unchanged; else if `responsible(pred.id, self.id, q.id)`, `pred = q` and
`succ` is unchanged; otherwise `pred` and `succ` are unchanged.  `self`, the
finger table, the store and the pending table are unchanged. -/
theorem stab_update_spec (E : Env) (s : Node) (c : client) (p : packet)
    (hc : p.flags &&& E.PKT_FLAG_CTRL ≠ 0)
    (hl : p.flags &&& E.PKT_FLAG_LKUP = 0) (hr : p.flags &&& E.PKT_FLAG_RPLY = 0)
    (hj : p.flags &&& E.PKT_FLAG_JOIN = 0) (hs : p.flags &&& E.PKT_FLAG_STAB ≠ 0) :
    ∃ o, handle_packet E s c p = some o ∧
      o.st.self = s.self ∧ o.st.fng_tab = s.fng_tab ∧ o.st.ht = s.ht ∧ o.st.rt = s.rt ∧
      (s.succ = none → o.st.succ = some (peer_from_packet p) ∧ o.st.pred = s.pred) ∧
      (∀ sc, s.succ = some sc → s.pred = none →
        o.st.pred = some (peer_from_packet p) ∧ o.st.succ = some sc) ∧
      (∀ sc pd, s.succ = some sc → s.pred = some pd →
        peer_is_responsible pd.node_id s.self.node_id (peer_from_packet p).node_id = true →
        o.st.pred = some (peer_from_packet p) ∧ o.st.succ = some sc) ∧
      (∀ sc pd, s.succ = some sc → s.pred = some pd →
        peer_is_responsible pd.node_id s.self.node_id (peer_from_packet p).node_id = false →
        o.st.pred = some pd ∧ o.st.succ = some sc) := by
  rw [handle_packet_of_ctrl E s c p hc, handle_packet_ctrl_stab E s c p hl hr hj hs]
  rcases s with ⟨self, pred, succ, psucc, fng, ht, rt⟩
  unfold ctrl_stab stab_update
  cases succ with
  | none => cases pred <;> simp
  | some sc =>
    cases pred with
    | none => simp
    | some pd =>
      by_cases h1 : peer_is_responsible pd.node_id self.node_id p.node_id = true
      · simp [h1, peer_from_packet]
      · simp [h1, peer_from_packet]

/-- C8 (witness): peer A (id 100) with `succ = B` and no `pred` receives a
`STAB` from B (id 200): afterwards `pred = B` and `succ = B`. -/
theorem stab_update_spec_witness :
    ∃ o, handle_packet env0 (mkNode peerA none (some peerB)) { socket := 7 }
        (ctrlPkt 0x84 peerB 0) = some o ∧
      o.st.pred = some peerB ∧ o.st.succ = some peerB := by
  obtain ⟨o, h, -, -, -, -, -, h2, -, -⟩ :=
    stab_update_spec env0 (mkNode peerA none (some peerB)) { socket := 7 }
      (ctrlPkt 0x84 peerB 0) (by decide) (by decide) (by decide) (by decide) (by decide)
  exact ⟨o, h, h2 peerB rfl rfl⟩

/-- C9: for a `STAB` control packet from `q`: if `pred` is set after the
ring-state update, exactly two sends are made, first a reply on the inbound
client socket and then a `forward` on a fresh connection to the peer
reconstructed from the packet, and both carry the same `CTRL|NTFY` packet,
which names the updated `pred` (the same packet serializes to the same bytes);
if `pred` is still unset after the update, nothing is sent. -/
theorem stab_reply_spec (E : Env) (s : Node) (c : client) (p : packet)
    (hc : p.flags &&& E.PKT_FLAG_CTRL ≠ 0)
    (hl : p.flags &&& E.PKT_FLAG_LKUP = 0) (hr : p.flags &&& E.PKT_FLAG_RPLY = 0)
    (hj : p.flags &&& E.PKT_FLAG_JOIN = 0) (hs : p.flags &&& E.PKT_FLAG_STAB ≠ 0) :
    ∃ o, handle_packet E s c p = some o ∧
      (∀ pd1, o.st.pred = some pd1 →
        o.out =
          [Event.reply c.socket
             { flags := E.PKT_FLAG_CTRL ||| E.PKT_FLAG_NTFY, hash_id := 0,
               node_id := pd1.node_id, node_ip := pd1.ip, node_port := pd1.port,
               key := [], value := [] },
           Event.send (peer_from_packet p)
             { flags := E.PKT_FLAG_CTRL ||| E.PKT_FLAG_NTFY, hash_id := 0,
               node_id := pd1.node_id, node_ip := pd1.ip, node_port := pd1.port,
               key := [], value := [] }
             (decide (E.peer_connect (peer_from_packet p) = 0))]) ∧
      (o.st.pred = none → o.out = []) := by
  rw [handle_packet_of_ctrl E s c p hc, handle_packet_ctrl_stab E s c p hl hr hj hs]
  unfold ctrl_stab
  cases h1 : (stab_update s p).pred with
  | none => simp [h1]
  | some pd1 => simp [h1, forward_out, build_ctrl_pkt, packet_new, peer_get_ip]

/-- C9 (witness): spec scenario 6.  A (id 100) with `pred = succ = B` receives
a `STAB` from B: the `NTFY` naming B is sent on the inbound socket 7 and again
on a fresh connection to B. -/
theorem stab_reply_spec_witness :
    ∃ o, handle_packet env0 (mkNode peerA (some peerB) (some peerB)) { socket := 7 }
        (ctrlPkt 0x84 peerB 0) = some o ∧
      o.st.pred = some peerB ∧
      o.out = [Event.reply 7 (ctrlPkt 0x88 peerB 0),
               Event.send peerB (ctrlPkt 0x88 peerB 0) true] := by
  obtain ⟨o, h, h1, -⟩ :=
    stab_reply_spec env0 (mkNode peerA (some peerB) (some peerB)) { socket := 7 }
      (ctrlPkt 0x84 peerB 0) (by decide) (by decide) (by decide) (by decide) (by decide)
  have h0 : handle_packet env0 (mkNode peerA (some peerB) (some peerB)) { socket := 7 }
      (ctrlPkt 0x84 peerB 0) = some
        { ret := 0, st := mkNode peerA (some peerB) (some peerB),
          out := [Event.reply 7 (ctrlPkt 0x88 peerB 0),
                  Event.send peerB (ctrlPkt 0x88 peerB 0) true] } := by
    decide
  rw [h0] at h
  cases h
  exact ⟨_, h0, rfl, h1 peerB rfl⟩

/-! ## LKUP -/

theorem ctrl_lkup_own (E : Env) (s : Node) (p : packet) (pd : peer) (hpred : s.pred = some pd)
    (h1 : peer_is_responsible pd.node_id s.self.node_id p.hash_id = true) :
    ctrl_lkup E s p = some (answer_lookup E s p s.self) := by
  unfold ctrl_lkup
  split <;> simp [hpred, h1]

theorem ctrl_lkup_succ (E : Env) (s : Node) (p : packet) (pd sc : peer)
    (hpred : s.pred = some pd) (hsucc : s.succ = some sc)
    (h1 : peer_is_responsible pd.node_id s.self.node_id p.hash_id = false)
    (h2 : peer_is_responsible s.self.node_id sc.node_id p.hash_id = true) :
    ctrl_lkup E s p = some (answer_lookup E s p sc) := by
  unfold ctrl_lkup
  split <;> simp [hpred, hsucc, h1, h2]

theorem ctrl_lkup_naive (E : Env) (s : Node) (p : packet) (pd sc : peer)
    (hpred : s.pred = some pd) (hsucc : s.succ = some sc)
    (h1 : peer_is_responsible pd.node_id s.self.node_id p.hash_id = false)
    (h2 : peer_is_responsible s.self.node_id sc.node_id p.hash_id = false)
    (hft : ∀ t, s.fng_tab = some t → t.state ≠ FT_ACTIVE) :
    ctrl_lkup E s p =
      some { ret := CB_REMOVE_CLIENT, st := s,
             out := [Event.send sc p (decide (E.peer_connect sc = 0))] } := by
  unfold ctrl_lkup
  cases hf : s.fng_tab with
  | none => simp [hpred, hsucc, h1, h2, forward_out]
  | some t => simp [hft t hf, hpred, hsucc, h1, h2, forward_out]

theorem ctrl_lkup_state (E : Env) (s : Node) (p : packet) (o : Outcome)
    (h : ctrl_lkup E s p = some o) : o.st = s ∧ o.ret = CB_REMOVE_CLIENT := by
  unfold ctrl_lkup at h
  split at h <;>
  · split at h
    · exact absurd h (by simp)
    · split at h
      · cases h; simp [answer_lookup_eq]
      · split at h
        · exact absurd h (by simp)
        · split at h
          · cases h; simp [answer_lookup_eq]
          · first
            | (cases h; exact ⟨rfl, rfl⟩)
            | (split at h
               · split at h
                 · exact absurd h (by simp)
                 · cases h; exact ⟨rfl, rfl⟩
               · cases h; exact ⟨rfl, rfl⟩)

theorem foldl_closest_cases (self_id hash_id : Nat) (l : List Nat) (acc : Option Nat)
    (idx : Nat)
    (h : l.foldl (fun acc i => if finger_start self_id i < hash_id then some i else acc) acc
      = some idx) :
    acc = some idx ∨ idx ∈ l := by
  induction l generalizing acc with
  | nil => exact Or.inl (by simpa using h)
  | cons a l ih =>
    simp only [List.foldl_cons] at h
    rcases ih _ h with h1 | h1
    · by_cases hlt : finger_start self_id a < hash_id
      · simp [hlt] at h1
        exact Or.inr (by simp [h1])
      · simp [hlt] at h1
        exact Or.inl h1
    · exact Or.inr (List.mem_cons_of_mem _ h1)

theorem closest_pred_idx_lt (self_id hash_id idx : Nat)
    (h : closest_pred_idx self_id hash_id = some idx) : idx < SIZE_OF_FT := by
  unfold closest_pred_idx at h
  rcases foldl_closest_cases self_id hash_id _ none idx h with h1 | h1
  · exact absurd h1 (by simp)
  · simpa using h1

theorem ctrl_lkup_finger_none (E : Env) (s : Node) (p : packet) (pd sc : peer)
    (t : finger_table) (hpred : s.pred = some pd) (hsucc : s.succ = some sc)
    (h1 : peer_is_responsible pd.node_id s.self.node_id p.hash_id = false)
    (h2 : peer_is_responsible s.self.node_id sc.node_id p.hash_id = false)
    (hf : s.fng_tab = some t) (hact : t.state = FT_ACTIVE)
    (hidx : closest_pred_idx s.self.node_id p.hash_id = none) :
    ctrl_lkup E s p = some { ret := CB_REMOVE_CLIENT, st := s, out := [] } := by
  unfold ctrl_lkup
  simp [hf, hact, hpred, hsucc, h1, h2, hidx]

theorem ctrl_lkup_finger (E : Env) (s : Node) (p : packet) (pd sc f : peer)
    (t : finger_table) (idx : Nat) (hpred : s.pred = some pd) (hsucc : s.succ = some sc)
    (h1 : peer_is_responsible pd.node_id s.self.node_id p.hash_id = false)
    (h2 : peer_is_responsible s.self.node_id sc.node_id p.hash_id = false)
    (hf : s.fng_tab = some t) (hact : t.state = FT_ACTIVE)
    (hidx : closest_pred_idx s.self.node_id p.hash_id = some idx)
    (hslot : t.ft.getD idx none = some f) :
    ctrl_lkup E s p =
      some { ret := CB_REMOVE_CLIENT, st := s,
             out := [Event.send f p (decide (E.peer_connect f = 0))] } := by
  unfold ctrl_lkup
  rw [List.getD_eq_getElem?_getD] at hslot
  simp [hf, hact, hpred, hsucc, h1, h2, hidx, hslot, forward_out]

/-- C10: for a node with `pred` and `succ` set and a `LKUP` control packet
`p`: if `responsible(pred.id, self.id, p.hash_id)`, exactly one send is made,
of a `CTRL|RPLY` packet with `hash_id = p.hash_id` that names `self`, to the
originator reconstructed from `p`; else if
`responsible(self.id, succ.id, p.hash_id)`, the same reply is sent but naming
`succ`; both hold whatever the finger table is.  Otherwise, when the finger
table is not `ACTIVE`, `p` is forwarded unchanged to `succ`.  In these cases
`CB_REMOVE_CLIENT` is returned and the node is unchanged.  In the remaining
case (table `ACTIVE`, neither responsible) the handler returns with the node
unchanged when the 16 slots are filled, and whenever the handler returns at all
the node is unchanged. -/
theorem lkup_spec (E : Env) (s : Node) (c : client) (p : packet) (pd sc : peer)
    (hpred : s.pred = some pd) (hsucc : s.succ = some sc)
    (hc : p.flags &&& E.PKT_FLAG_CTRL ≠ 0) (hl : p.flags &&& E.PKT_FLAG_LKUP ≠ 0) :
    (peer_is_responsible pd.node_id s.self.node_id p.hash_id = true →
      handle_packet E s c p =
        some { ret := CB_REMOVE_CLIENT, st := s,
               out := [Event.send (peer_from_packet p)
                 { flags := E.PKT_FLAG_CTRL ||| E.PKT_FLAG_RPLY, hash_id := p.hash_id,
                   node_id := s.self.node_id, node_ip := s.self.ip, node_port := s.self.port,
                   key := [], value := [] }
                 (decide (E.peer_connect (peer_from_packet p) = 0))] }) ∧
    (peer_is_responsible pd.node_id s.self.node_id p.hash_id = false →
      peer_is_responsible s.self.node_id sc.node_id p.hash_id = true →
      handle_packet E s c p =
        some { ret := CB_REMOVE_CLIENT, st := s,
               out := [Event.send (peer_from_packet p)
                 { flags := E.PKT_FLAG_CTRL ||| E.PKT_FLAG_RPLY, hash_id := p.hash_id,
                   node_id := sc.node_id, node_ip := sc.ip, node_port := sc.port,
                   key := [], value := [] }
                 (decide (E.peer_connect (peer_from_packet p) = 0))] }) ∧
    (peer_is_responsible pd.node_id s.self.node_id p.hash_id = false →
      peer_is_responsible s.self.node_id sc.node_id p.hash_id = false →
      (∀ t, s.fng_tab = some t → t.state ≠ FT_ACTIVE) →
      handle_packet E s c p =
        some { ret := CB_REMOVE_CLIENT, st := s,
               out := [Event.send sc p (decide (E.peer_connect sc = 0))] }) ∧
    (peer_is_responsible pd.node_id s.self.node_id p.hash_id = false →
      peer_is_responsible s.self.node_id sc.node_id p.hash_id = false →
      ∀ t, s.fng_tab = some t → t.state = FT_ACTIVE →
      (∀ i, i < SIZE_OF_FT → ∃ f, t.ft.getD i none = some f) →
      ∃ o, handle_packet E s c p = some o ∧ o.ret = CB_REMOVE_CLIENT ∧ o.st = s) ∧
    (∀ o, handle_packet E s c p = some o → o.st = s) := by
  rw [handle_packet_of_ctrl E s c p hc, handle_packet_ctrl_lkup E s c p hl]
  refine ⟨?_, ?_, ?_, ?_, ?_⟩
  · intro h1
    rw [ctrl_lkup_own E s p pd hpred h1, answer_lookup_eq]
  · intro h1 h2
    rw [ctrl_lkup_succ E s p pd sc hpred hsucc h1 h2, answer_lookup_eq]
  · intro h1 h2 hft
    exact ctrl_lkup_naive E s p pd sc hpred hsucc h1 h2 hft
  · intro h1 h2 t hf hact hall
    cases hidx : closest_pred_idx s.self.node_id p.hash_id with
    | none =>
      exact ⟨_, ctrl_lkup_finger_none E s p pd sc t hpred hsucc h1 h2 hf hact hidx, rfl, rfl⟩
    | some idx =>
      obtain ⟨f, hslot⟩ := hall idx (closest_pred_idx_lt _ _ _ hidx)
      exact ⟨_, ctrl_lkup_finger E s p pd sc f t idx hpred hsucc h1 h2 hf hact hidx hslot,
        rfl, rfl⟩
  · intro o h
    exact (ctrl_lkup_state E s p o h).1

/-- C10 (witness): spec scenario 3.  The peer with id 100, `pred` = peer 10
and `succ` = peer 200 receives `LKUP(150)` that originates at peer 10: it
replies to peer 10 with a `RPLY` for 150 that names the peer with id 200. -/
theorem lkup_spec_witness :
    (mkNode peerA (some peer10) (some peerB)).pred = some peer10 ∧
    (mkNode peerA (some peer10) (some peerB)).succ = some peerB ∧
    handle_packet env0 (mkNode peerA (some peer10) (some peerB)) { socket := 7 }
        (ctrlPkt 0x81 peer10 150) =
      some { ret := CB_REMOVE_CLIENT, st := mkNode peerA (some peer10) (some peerB),
             out := [Event.send peer10 (ctrlPkt 0x82 peerB 150) true] } :=
  ⟨rfl, rfl,
    (lkup_spec env0 (mkNode peerA (some peer10) (some peerB)) { socket := 7 }
      (ctrlPkt 0x81 peer10 150) peer10 peerB rfl rfl (by decide) (by decide)).2.1
      (by decide) (by decide)⟩

/-! ## LKUP through the finger table -/

theorem closest_fold_succ (self_id hash_id n : Nat) :
    (List.range (n + 1)).foldl
        (fun acc i => if finger_start self_id i < hash_id then some i else acc) none
      = if finger_start self_id n < hash_id then some n
        else (List.range n).foldl
          (fun acc i => if finger_start self_id i < hash_id then some i else acc) none := by
  rw [List.range_succ, List.foldl_append]
  rfl

theorem closest_fold_spec (self_id hash_id n : Nat) :
    ((List.range n).foldl
        (fun acc i => if finger_start self_id i < hash_id then some i else acc) none = none →
      ∀ j, j < n → ¬ finger_start self_id j < hash_id) ∧
    (∀ r, (List.range n).foldl
        (fun acc i => if finger_start self_id i < hash_id then some i else acc) none = some r →
      r < n ∧ finger_start self_id r < hash_id ∧
      ∀ j, j < n → finger_start self_id j < hash_id → j ≤ r) := by
  induction n with
  | zero => simp
  | succ n ih =>
    rw [closest_fold_succ]
    by_cases hlt : finger_start self_id n < hash_id
    · simp only [hlt, if_true]
      refine ⟨fun h => absurd h (by simp), ?_⟩
      intro r hr
      simp only [Option.some.injEq] at hr
      subst hr
      exact ⟨Nat.lt_succ_self _, hlt, fun j hj _ => Nat.lt_succ_iff.mp hj⟩
    · simp only [hlt, if_false]
      refine ⟨?_, ?_⟩
      · intro h j hj
        rcases Nat.lt_succ_iff_lt_or_eq.mp hj with h' | h'
        · exact ih.1 h j h'
        · subst h'; exact hlt
      · intro r hr
        obtain ⟨h1, h2, h3⟩ := ih.2 r hr
        refine ⟨Nat.lt_succ_of_lt h1, h2, ?_⟩
        intro j hj hjlt
        rcases Nat.lt_succ_iff_lt_or_eq.mp hj with h' | h'
        · exact h3 j h' hjlt
        · subst h'; exact absurd hjlt hlt

theorem closest_pred_idx_none (self_id hash_id : Nat)
    (h : closest_pred_idx self_id hash_id = none) :
    ∀ j, j < SIZE_OF_FT → ¬ finger_start self_id j < hash_id :=
  (closest_fold_spec self_id hash_id SIZE_OF_FT).1 h

theorem closest_pred_idx_some (self_id hash_id r : Nat)
    (h : closest_pred_idx self_id hash_id = some r) :
    r < SIZE_OF_FT ∧ finger_start self_id r < hash_id ∧
      ∀ j, j < SIZE_OF_FT → finger_start self_id j < hash_id → j ≤ r :=
  (closest_fold_spec self_id hash_id SIZE_OF_FT).2 r h

/-- C11: on a node whose finger table is `ACTIVE` (all 16 slots hold a peer)
and for a `LKUP` packet `p` for which neither `self` nor `succ` is responsible:
if some `i < 16` has `finger_start(self.id, i) < p.hash_id` (plain integer
comparison), then there is a largest such `i*`, and the handler makes exactly
one send: the unchanged `p` is forwarded to the peer in slot `i*`.  The node is
unchanged and `CB_REMOVE_CLIENT` is returned. -/
theorem lkup_finger_spec (E : Env) (s : Node) (c : client) (p : packet) (pd sc : peer)
    (t : finger_table) (hpred : s.pred = some pd) (hsucc : s.succ = some sc)
    (hc : p.flags &&& E.PKT_FLAG_CTRL ≠ 0) (hl : p.flags &&& E.PKT_FLAG_LKUP ≠ 0)
    (h1 : peer_is_responsible pd.node_id s.self.node_id p.hash_id = false)
    (h2 : peer_is_responsible s.self.node_id sc.node_id p.hash_id = false)
    (hf : s.fng_tab = some t) (hact : t.state = FT_ACTIVE)
    (hfull : ∀ i, i < SIZE_OF_FT → ∃ f, t.ft.getD i none = some f)
    (hex : ∃ i, i < SIZE_OF_FT ∧ finger_start s.self.node_id i < p.hash_id) :
    ∃ istar f, istar < SIZE_OF_FT ∧ finger_start s.self.node_id istar < p.hash_id ∧
      (∀ j, j < SIZE_OF_FT → finger_start s.self.node_id j < p.hash_id → j ≤ istar) ∧
      t.ft.getD istar none = some f ∧
      handle_packet E s c p =
        some { ret := CB_REMOVE_CLIENT, st := s,
               out := [Event.send f p (decide (E.peer_connect f = 0))] } := by
  rw [handle_packet_of_ctrl E s c p hc, handle_packet_ctrl_lkup E s c p hl]
  cases hidx : closest_pred_idx s.self.node_id p.hash_id with
  | none =>
    obtain ⟨i, hi, hlt⟩ := hex
    exact absurd hlt (closest_pred_idx_none _ _ hidx i hi)
  | some istar =>
    obtain ⟨hlt, hst, hmax⟩ := closest_pred_idx_some _ _ _ hidx
    obtain ⟨f, hslot⟩ := hfull istar hlt
    exact ⟨istar, f, hlt, hst, hmax, hslot,
      ctrl_lkup_finger E s p pd sc f t istar hpred hsucc h1 h2 hf hact hidx hslot⟩

theorem ftA_full : ∀ i, i < SIZE_OF_FT → ∃ f, ftA.ft.getD i none = some f := by
  intro i hi
  have hi16 : i < 16 := hi
  interval_cases i <;> exact ⟨_, rfl⟩

/-- C11 (witness): the peer with id 100 in the ring 10, 100, 200, finger table
`ACTIVE`, receives `LKUP(40000)`: every start (101 .. 32868) is below 40000,
so the packet is forwarded to slot 15, which holds peer 10. -/
theorem lkup_finger_spec_witness :
    ∃ istar f, istar < SIZE_OF_FT ∧ finger_start nodeActive.self.node_id istar < 40000 ∧
      (∀ j, j < SIZE_OF_FT → finger_start nodeActive.self.node_id j < 40000 → j ≤ istar) ∧
      ftA.ft.getD istar none = some f ∧
      handle_packet env0 nodeActive { socket := 7 } (ctrlPkt 0x81 peerB 40000) =
        some { ret := CB_REMOVE_CLIENT, st := nodeActive,
               out := [Event.send f (ctrlPkt 0x81 peerB 40000)
                 (decide (env0.peer_connect f = 0))] } :=
  lkup_finger_spec env0 nodeActive { socket := 7 } (ctrlPkt 0x81 peerB 40000) peer10 peerB ftA
    rfl rfl (by decide) (by decide) (by decide) (by decide) rfl rfl ftA_full
    ⟨0, by decide, by decide⟩

/-! ## FNGR: building the finger table -/

theorem handle_packet_ctrl_fngr (E : Env) (s : Node) (c : client) (p : packet)
    (hl : p.flags &&& E.PKT_FLAG_LKUP = 0) (hr : p.flags &&& E.PKT_FLAG_RPLY = 0)
    (hj : p.flags &&& E.PKT_FLAG_JOIN = 0) (hs : p.flags &&& E.PKT_FLAG_STAB = 0)
    (hn : p.flags &&& E.PKT_FLAG_NTFY = 0) (hf : p.flags &&& E.PKT_FLAG_FNGR ≠ 0) :
    handle_packet_ctrl E s c p = ctrl_fngr E s c := by
  simp [handle_packet_ctrl, hl, hr, hj, hs, hn, hf]

theorem handle_packet_ctrl_other (E : Env) (s : Node) (c : client) (p : packet)
    (hl : p.flags &&& E.PKT_FLAG_LKUP = 0) (hr : p.flags &&& E.PKT_FLAG_RPLY = 0)
    (hj : p.flags &&& E.PKT_FLAG_JOIN = 0) (hs : p.flags &&& E.PKT_FLAG_STAB = 0)
    (hn : p.flags &&& E.PKT_FLAG_NTFY = 0) (hf : p.flags &&& E.PKT_FLAG_FNGR = 0) :
    handle_packet_ctrl E s c p = some { ret := CB_REMOVE_CLIENT, st := s, out := [] } := by
  simp [handle_packet_ctrl, hl, hr, hj, hs, hn, hf]

theorem finger_start_lt (self_id i : Nat) : finger_start self_id i < 65536 := by
  unfold finger_start SIZE_OF_FT
  exact Nat.mod_lt _ (by norm_num)

theorem lookup_all_eq (E : Env) (s : Node) (sc : peer) (hsucc : s.succ = some sc)
    (l : List Nat) :
    lookup_all E s l =
      some (l.map (fun h => Event.send sc
        { flags := E.PKT_FLAG_CTRL ||| E.PKT_FLAG_LKUP, hash_id := h % 65536,
          node_id := s.self.node_id, node_ip := s.self.ip, node_port := s.self.port,
          key := [], value := [] }
        (decide (E.peer_connect sc = 0)))) := by
  induction l with
  | nil => rfl
  | cons h rest ih =>
    simp [lookup_all, ih, lookup_peer, hsucc, forward_out, packet_new, peer_get_ip]

theorem build_finger_table_eq (E : Env) (s : Node) (sc : peer) (hsucc : s.succ = some sc) :
    build_finger_table E s =
      some ({ s with fng_tab := some { state := FT_INIT, finger_count := 0,
                                        ft := List.replicate 16 none } },
        (List.range 16).map (fun i => Event.send sc
          { flags := E.PKT_FLAG_CTRL ||| E.PKT_FLAG_LKUP,
            hash_id := (s.self.node_id + 2 ^ i) % 2 ^ 16,
            node_id := s.self.node_id, node_ip := s.self.ip, node_port := s.self.port,
            key := [], value := [] }
          (decide (E.peer_connect sc = 0)))) := by
  have hl := lookup_all_eq E
    { s with fng_tab := some { state := FT_INIT, finger_count := 0,
                               ft := List.replicate SIZE_OF_FT none } }
    sc hsucc ((List.range SIZE_OF_FT).map (finger_start s.self.node_id))
  unfold build_finger_table
  dsimp only
  rw [hl]
  simp only [List.map_map, SIZE_OF_FT]
  congr 3
  funext i
  have h := Nat.mod_eq_of_lt (finger_start_lt s.self.node_id i)
  simp only [Function.comp, h]
  rfl

/-- C12: on a node with `succ` set, handling a `FNGR` control packet performs
exactly this sequence of sends: first one `CTRL|FACK` packet on the inbound
client socket, then sixteen `CTRL|LKUP` packets to `succ` whose `hash_id`s are
`(self.id + 2^i) mod 2^16` for `i = 0, 1, ..., 15` in that order, each naming
`self`.  Afterwards the finger table is a fresh table in state `INIT` with 16
empty slots and `finger_count` 0, whatever table existed before; the rest of
the node is unchanged.  The status of the `FACK` send is returned. -/
theorem fngr_spec (E : Env) (s : Node) (c : client) (p : packet) (sc : peer)
    (hsucc : s.succ = some sc) (hc : p.flags &&& E.PKT_FLAG_CTRL ≠ 0)
    (hl : p.flags &&& E.PKT_FLAG_LKUP = 0) (hr : p.flags &&& E.PKT_FLAG_RPLY = 0)
    (hj : p.flags &&& E.PKT_FLAG_JOIN = 0) (hs : p.flags &&& E.PKT_FLAG_STAB = 0)
    (hn : p.flags &&& E.PKT_FLAG_NTFY = 0) (hf : p.flags &&& E.PKT_FLAG_FNGR ≠ 0) :
    handle_packet E s c p =
      some
        { ret := E.sendall_sock c.socket
            { flags := E.PKT_FLAG_CTRL ||| E.PKT_FLAG_FACK, hash_id := 0, node_id := 0,
              node_ip := 0, node_port := 0, key := [], value := [] },
          st := { s with fng_tab := some { state := FT_INIT, finger_count := 0,
                                            ft := List.replicate 16 none } },
          out :=
            Event.reply c.socket
              { flags := E.PKT_FLAG_CTRL ||| E.PKT_FLAG_FACK, hash_id := 0, node_id := 0,
                node_ip := 0, node_port := 0, key := [], value := [] } ::
            (List.range 16).map (fun i => Event.send sc
              { flags := E.PKT_FLAG_CTRL ||| E.PKT_FLAG_LKUP,
                hash_id := (s.self.node_id + 2 ^ i) % 2 ^ 16,
                node_id := s.self.node_id, node_ip := s.self.ip, node_port := s.self.port,
                key := [], value := [] }
              (decide (E.peer_connect sc = 0))) } := by
  rw [handle_packet_of_ctrl E s c p hc, handle_packet_ctrl_fngr E s c p hl hr hj hs hn hf]
  unfold ctrl_fngr
  rw [build_finger_table_eq E s sc hsucc]
  rfl

/-- C12 (witness): peer A (id 100) with `succ = B`, finger table `ACTIVE`,
receives `FNGR` on socket 7: 17 sends are made, the first is the `FACK` on
socket 7, the second the `LKUP` for 101 and the last the `LKUP` for 32868, and
the table is a fresh `INIT` table. -/
theorem fngr_spec_witness :
    ∃ o, handle_packet env0 nodeActive { socket := 7 } (ctrlPkt 0xC0 peerB 0) = some o ∧
      o.out.length = 17 ∧
      o.out.head? = some (Event.reply 7 (dataPkt 0xA0 [] [])) ∧
      o.out.get? 1 = some (Event.send peerB (ctrlPkt 0x81 peerA 101) true) ∧
      o.out.get? 16 = some (Event.send peerB (ctrlPkt 0x81 peerA 32868) true) ∧
      o.st.fng_tab
        = some { state := FT_INIT, finger_count := 0, ft := List.replicate 16 none } :=
  ⟨_, fngr_spec env0 nodeActive { socket := 7 } (ctrlPkt 0xC0 peerB 0) peerB rfl (by decide)
      (by decide) (by decide) (by decide) (by decide) (by decide) (by decide),
    by decide, by decide, by decide, by decide, rfl⟩

/-! ## RPLY: finger placement -/

theorem handle_packet_ctrl_rply (E : Env) (s : Node) (c : client) (p : packet)
    (hl : p.flags &&& E.PKT_FLAG_LKUP = 0) (hr : p.flags &&& E.PKT_FLAG_RPLY ≠ 0) :
    handle_packet_ctrl E s c p = ctrl_rply E s p := by
  simp [handle_packet_ctrl, hl, hr]

theorem find_range_spec (q : Nat → Bool) (n : Nat) :
    ((List.range n).find? q = none → ∀ j, j < n → q j = false) ∧
    (∀ r, (List.range n).find? q = some r →
      r < n ∧ q r = true ∧ ∀ j, j < r → q j = false) := by
  induction n with
  | zero => simp
  | succ n ih =>
    rw [List.range_succ, List.find?_append]
    cases hfind : (List.range n).find? q with
    | some r0 =>
      obtain ⟨h1, h2, h3⟩ := ih.2 r0 hfind
      refine ⟨fun h => absurd h (by simp), ?_⟩
      intro r hr
      simp at hr
      subst hr
      exact ⟨Nat.lt_succ_of_lt h1, h2, h3⟩
    | none =>
      have hall := ih.1 hfind
      by_cases hq : q n = true
      · refine ⟨fun h => absurd h (by simp [hq]), ?_⟩
        intro r hr
        simp [hq] at hr
        subst hr
        exact ⟨Nat.lt_succ_self _, hq, hall⟩
      · simp only [Bool.not_eq_true] at hq
        refine ⟨?_, fun r hr => absurd hr (by simp [hq])⟩
        intro _ j hj
        rcases Nat.lt_succ_iff_lt_or_eq.mp hj with h' | h'
        · exact hall j h'
        · subst h'; exact hq

theorem place_finger_hit (self_id : Nat) (t : finger_table) (p : packet) (i : Nat)
    (h : (List.range SIZE_OF_FT).find?
      (fun i => p.hash_id == finger_start self_id i && (t.ft.getD i none).isNone) = some i) :
    place_finger self_id t p =
      { state := if t.finger_count + 1 = SIZE_OF_FT then FT_ACTIVE else t.state,
        finger_count := t.finger_count + 1,
        ft := t.ft.set i (some (peer_from_packet p)) } := by
  unfold place_finger
  simp only [h]
  split <;> rfl

theorem place_finger_miss (self_id : Nat) (t : finger_table) (p : packet)
    (hcnt : t.finger_count < SIZE_OF_FT)
    (h : (List.range SIZE_OF_FT).find?
      (fun i => p.hash_id == finger_start self_id i && (t.ft.getD i none).isNone) = none) :
    place_finger self_id t p = t := by
  unfold place_finger
  simp only [h]
  rw [if_neg (Nat.ne_of_lt hcnt)]

theorem ctrl_rply_fng_tab (E : Env) (s : Node) (p : packet) (t : finger_table)
    (hf : s.fng_tab = some t) (hinit : t.state = FT_INIT)
    (hcnt : t.finger_count < SIZE_OF_FT) :
    ctrl_rply E s p =
      some { ret := CB_REMOVE_CLIENT,
             st := { s with fng_tab := some (place_finger s.self.node_id t p),
                            rt := clear_requests s.rt p.hash_id },
             out := (get_requests s.rt p.hash_id).flatMap
               (fun r => [Event.proxy r.socket r.packet (peer_from_packet p)
                            (decide (E.peer_connect (peer_from_packet p) = 0)),
                          Event.close r.socket]) } := by
  unfold ctrl_rply
  simp [hf, hinit, hcnt, proxy_request_out]

theorem getD_set_same (l : List (Option peer)) (i : Nat) (x : Option peer)
    (hi : i < l.length) : (l.set i x).getD i none = x := by
  simp [List.getD_eq_getElem?_getD, hi]

theorem getD_set_other (l : List (Option peer)) (i j : Nat) (x : Option peer) (hne : j ≠ i) :
    (l.set i x).getD j none = l.getD j none := by
  simp [List.getD_eq_getElem?_getD, List.getElem?_set, Ne.symm hne]

/-- C13: for a finger table `t` in state `INIT` with `finger_count < 16` (and
its 16 slots) and a `RPLY` packet `p` that names peer `n`: if `i < 16` is the
first index with `finger_start(self.id, i) = p.hash_id` and slot `i` empty,
then afterwards slot `i` holds `n`, every other slot is unchanged,
`finger_count` is increased by exactly 1, and the state is `ACTIVE` iff the new
`finger_count` is 16 (it is `INIT` otherwise); if there is no such index, the
table (slots, `finger_count`, state) is unchanged. -/
theorem rply_place_spec (E : Env) (s : Node) (c : client) (p : packet) (t : finger_table)
    (hc : p.flags &&& E.PKT_FLAG_CTRL ≠ 0)
    (hl : p.flags &&& E.PKT_FLAG_LKUP = 0) (hr : p.flags &&& E.PKT_FLAG_RPLY ≠ 0)
    (hf : s.fng_tab = some t) (hinit : t.state = FT_INIT)
    (hcnt : t.finger_count < SIZE_OF_FT) (hlen : t.ft.length = SIZE_OF_FT) :
    ∃ o t2, handle_packet E s c p = some o ∧ o.st.fng_tab = some t2 ∧
      (∀ i, i < SIZE_OF_FT → finger_start s.self.node_id i = p.hash_id →
        t.ft.getD i none = none →
        (∀ j, j < i →
          ¬ (finger_start s.self.node_id j = p.hash_id ∧ t.ft.getD j none = none)) →
        t2.ft.getD i none = some (peer_from_packet p) ∧
        (∀ j, j ≠ i → t2.ft.getD j none = t.ft.getD j none) ∧
        t2.ft.length = SIZE_OF_FT ∧
        t2.finger_count = t.finger_count + 1 ∧
        (t2.state = FT_ACTIVE ↔ t2.finger_count = SIZE_OF_FT) ∧
        (t2.state = FT_ACTIVE ∨ t2.state = FT_INIT)) ∧
      ((∀ i, i < SIZE_OF_FT →
          ¬ (finger_start s.self.node_id i = p.hash_id ∧ t.ft.getD i none = none)) →
        t2 = t) := by
  rw [handle_packet_of_ctrl E s c p hc, handle_packet_ctrl_rply E s c p hl hr,
    ctrl_rply_fng_tab E s p t hf hinit hcnt]
  refine ⟨_, _, rfl, rfl, ?_, ?_⟩
  · intro i hi hstart hempty hfirst
    have hspec := find_range_spec
      (fun i => p.hash_id == finger_start s.self.node_id i && (t.ft.getD i none).isNone)
      SIZE_OF_FT
    cases hfind : (List.range SIZE_OF_FT).find?
        (fun i => p.hash_id == finger_start s.self.node_id i && (t.ft.getD i none).isNone) with
    | none =>
      have := hspec.1 hfind i hi
      rw [hstart, hempty] at this
      simp at this
    | some r =>
      obtain ⟨hr1, hr2, hr3⟩ := hspec.2 r hfind
      simp only [Bool.and_eq_true, beq_iff_eq, Option.isNone_iff_eq_none] at hr2
      have hri : r = i := by
        rcases Nat.lt_trichotomy r i with h | h | h
        · exact absurd ⟨hr2.1.symm, hr2.2⟩ (hfirst r h)
        · exact h
        · have := hr3 i h
          rw [hstart, hempty] at this
          simp at this
      subst hri
      rw [place_finger_hit _ _ _ _ hfind]
      refine ⟨getD_set_same _ _ _ (by rw [hlen]; exact hi),
        fun j hne => getD_set_other _ _ _ _ hne, by simp [hlen], rfl, ?_, ?_⟩
      · by_cases h16 : t.finger_count + 1 = SIZE_OF_FT
        · simp [h16]
        · simp [h16, hinit, FT_INIT, FT_ACTIVE]
      · by_cases h16 : t.finger_count + 1 = SIZE_OF_FT
        · simp [h16]
        · simp [h16, hinit]
  · intro hnone
    apply place_finger_miss _ _ _ hcnt
    rw [List.find?_eq_none]
    intro i hi
    have hi16 : i < SIZE_OF_FT := by simpa using hi
    have := hnone i hi16
    simp only [Bool.and_eq_true, beq_iff_eq, Option.isNone_iff_eq_none]
    intro h
    exact this ⟨h.1.symm, h.2⟩

/-- C13 (witness): peer A (id 100) is building its table (`INIT`, all slots
empty) and receives the `RPLY` for 104 = 100 + 2^2 that names B: afterwards
slot 2 holds B, the count is 1 and the state is still `INIT`. -/
theorem rply_place_spec_witness :
    ∃ o t2, handle_packet env0 nodeInit { socket := 7 } (ctrlPkt 0x82 peerB 104) = some o ∧
      o.st.fng_tab = some t2 ∧ t2.ft.getD 2 none = some peerB ∧ t2.finger_count = 1 ∧
      t2.state = FT_INIT := by
  obtain ⟨o, t2, h, hft, h1, -⟩ :=
    rply_place_spec env0 nodeInit { socket := 7 } (ctrlPkt 0x82 peerB 104)
      { state := FT_INIT, finger_count := 0, ft := List.replicate 16 none }
      (by decide) (by decide) (by decide) rfl rfl (by decide) rfl
  obtain ⟨ha, -, -, hb, hc, hd⟩ := h1 2 (by decide) (by decide) (by decide) (by decide)
  refine ⟨o, t2, h, hft, ha, hb, ?_⟩
  rcases hd with hd | hd
  · rw [hc.mp hd] at hb
    exact absurd hb (by decide)
  · exact hd

/-! ## What one call of `handle_packet` can change -/

theorem handle_packet_data_frame (E : Env) (s : Node) (c : client) (p : packet) (o : Outcome)
    (h : handle_packet_data E s c p = some o) :
    o.st.self = s.self ∧ o.st.pred = s.pred ∧ o.st.succ = s.succ ∧
      o.st.fng_tab = s.fng_tab := by
  rcases s with ⟨self, pred, succ, psucc, fng, ht, rt⟩
  unfold handle_packet_data at h
  cases pred with
  | none => simp at h
  | some pd =>
    simp only at h
    split at h
    · cases h
      unfold handle_own_request
      split
      · split <;> simp
      · split
        · simp
        · split <;> simp
    · cases succ with
      | none => simp at h
      | some sc =>
        simp only at h
        split at h
        · cases h; simp
        · simp only [lookup_peer] at h
          cases h; simp

theorem ctrl_rply_frame (E : Env) (s : Node) (p : packet) (o : Outcome)
    (h : ctrl_rply E s p = some o) :
    o.st.self = s.self ∧ o.st.pred = s.pred ∧ o.st.succ = s.succ ∧
      (o.st.fng_tab = s.fng_tab ∨
        ∃ t, s.fng_tab = some t ∧ t.state = FT_INIT ∧ t.finger_count < SIZE_OF_FT ∧
          o.st.fng_tab = some (place_finger s.self.node_id t p)) := by
  unfold ctrl_rply at h
  cases h
  refine ⟨rfl, rfl, rfl, ?_⟩
  cases hf : s.fng_tab with
  | none => exact Or.inl rfl
  | some t =>
    by_cases hc : t.state = FT_INIT ∧ t.finger_count < SIZE_OF_FT
    · exact Or.inr ⟨t, rfl, hc.1, hc.2, by simp [hc]⟩
    · exact Or.inl (by simp [hc])

theorem ctrl_fngr_frame (E : Env) (s : Node) (c : client) (o : Outcome)
    (h : ctrl_fngr E s c = some o) :
    o.st.self = s.self ∧ o.st.pred = s.pred ∧ o.st.succ = s.succ ∧
      o.st.fng_tab = some { state := FT_INIT, finger_count := 0,
                            ft := List.replicate SIZE_OF_FT none } := by
  unfold ctrl_fngr build_finger_table at h
  simp only at h
  split at h
  · exact absurd h (by simp)
  · rename_i r hr
    split at hr
    · exact absurd hr (by simp)
    · cases hr
      cases h
      exact ⟨rfl, rfl, rfl, rfl⟩

theorem ctrl_join_frame (E : Env) (s : Node) (p : packet) (o : Outcome)
    (h : ctrl_join E s p = some o) :
    o.st.self = s.self ∧ o.st.fng_tab = s.fng_tab ∧
      (o.st.pred = s.pred ∨
        (o.st.pred = some (peer_from_packet p) ∧
          ((s.pred = none ∧ o.st.succ ≠ none) ∨
            ∃ pd, s.pred = some pd ∧
              peer_is_responsible pd.node_id s.self.node_id p.node_id = true))) ∧
      (o.st.succ = s.succ ∨ (o.st.succ = some (peer_from_packet p) ∧ s.succ = none)) := by
  rcases s with ⟨self, pred, succ, psucc, fng, ht, rt⟩
  unfold ctrl_join at h
  cases pred with
  | none =>
    cases succ <;>
    · simp only at h
      cases h
      simp
  | some pd =>
    simp only at h
    by_cases h1 : peer_is_responsible pd.node_id self.node_id p.node_id = true
    · simp only [h1, if_true] at h
      cases h
      simp [h1]
    · simp only [h1] at h
      cases succ <;>
      · simp only at h
        cases h
        simp

theorem ctrl_stab_frame (E : Env) (s : Node) (c : client) (p : packet) (o : Outcome)
    (h : ctrl_stab E s c p = some o) :
    o.st.self = s.self ∧ o.st.fng_tab = s.fng_tab ∧
      (o.st.pred = s.pred ∨
        (o.st.pred = some (peer_from_packet p) ∧
          ((s.pred = none ∧ o.st.succ ≠ none) ∨
            ∃ pd, s.pred = some pd ∧
              peer_is_responsible pd.node_id s.self.node_id p.node_id = true))) ∧
      (o.st.succ = s.succ ∨ (o.st.succ = some (peer_from_packet p) ∧ s.succ = none)) := by
  have hst : o.st = stab_update s p := by
    unfold ctrl_stab at h
    simp only at h
    split at h <;> (cases h; rfl)
  rw [hst]
  rcases s with ⟨self, pred, succ, psucc, fng, ht, rt⟩
  unfold stab_update
  cases succ with
  | none => simp
  | some sc =>
    cases pred with
    | none => simp
    | some pd =>
      by_cases h1 : peer_is_responsible pd.node_id self.node_id p.node_id = true
      · simp [h1]
      · simp [h1]

theorem ctrl_ntfy_frame (s : Node) (p : packet) (o : Outcome)
    (h : ctrl_ntfy s p = some o) :
    o.st.self = s.self ∧ o.st.fng_tab = s.fng_tab ∧ o.st.pred = s.pred ∧
      (o.st.succ = s.succ ∨
        (o.st.succ = some (peer_from_packet p) ∧
          (s.succ = none ∨
            ∃ sc, s.succ = some sc ∧
              peer_is_responsible s.self.node_id sc.node_id p.node_id = true))) := by
  rcases s with ⟨self, pred, succ, psucc, fng, ht, rt⟩
  unfold ctrl_ntfy at h
  cases succ with
  | none =>
    simp only at h
    cases h
    simp
  | some sc =>
    simp only at h
    by_cases h1 : peer_is_responsible self.node_id sc.node_id p.node_id = true
    · simp only [h1, if_true] at h
      cases h
      simp [h1]
    · simp only [h1] at h
      cases h
      simp

theorem handle_packet_fng_tab (E : Env) (s : Node) (c : client) (p : packet) (o : Outcome)
    (h : handle_packet E s c p = some o) :
    o.st.fng_tab = s.fng_tab ∨
      (∃ t, s.fng_tab = some t ∧ t.state = FT_INIT ∧ t.finger_count < SIZE_OF_FT ∧
        o.st.fng_tab = some (place_finger s.self.node_id t p)) ∨
      o.st.fng_tab = some { state := FT_INIT, finger_count := 0,
                            ft := List.replicate SIZE_OF_FT none } := by
  by_cases hc : p.flags &&& E.PKT_FLAG_CTRL = 0
  · rw [handle_packet_of_data E s c p hc] at h
    exact Or.inl (handle_packet_data_frame E s c p o h).2.2.2
  rw [handle_packet_of_ctrl E s c p hc] at h
  by_cases hl : p.flags &&& E.PKT_FLAG_LKUP = 0
  swap
  · rw [handle_packet_ctrl_lkup E s c p hl] at h
    rw [(ctrl_lkup_state E s p o h).1]
    exact Or.inl rfl
  by_cases hr : p.flags &&& E.PKT_FLAG_RPLY = 0
  swap
  · rw [handle_packet_ctrl_rply E s c p hl hr] at h
    rcases (ctrl_rply_frame E s p o h).2.2.2 with h1 | h1
    · exact Or.inl h1
    · exact Or.inr (Or.inl h1)
  by_cases hj : p.flags &&& E.PKT_FLAG_JOIN = 0
  swap
  · rw [handle_packet_ctrl_join E s c p hl hr hj] at h
    exact Or.inl (ctrl_join_frame E s p o h).2.1
  by_cases hs : p.flags &&& E.PKT_FLAG_STAB = 0
  swap
  · rw [handle_packet_ctrl_stab E s c p hl hr hj hs] at h
    exact Or.inl (ctrl_stab_frame E s c p o h).2.1
  by_cases hn : p.flags &&& E.PKT_FLAG_NTFY = 0
  swap
  · rw [handle_packet_ctrl_ntfy E s c p hl hr hj hs hn] at h
    exact Or.inl (ctrl_ntfy_frame s p o h).2.1
  by_cases hf : p.flags &&& E.PKT_FLAG_FNGR = 0
  swap
  · rw [handle_packet_ctrl_fngr E s c p hl hr hj hs hn hf] at h
    exact Or.inr (Or.inr (ctrl_fngr_frame E s c o h).2.2.2)
  rw [handle_packet_ctrl_other E s c p hl hr hj hs hn hf] at h
  cases h
  exact Or.inl rfl

theorem handle_packet_ring (E : Env) (s : Node) (c : client) (p : packet) (o : Outcome)
    (h : handle_packet E s c p = some o) :
    o.st.self = s.self ∧
    (o.st.pred = s.pred ∨
      (o.st.pred = some (peer_from_packet p) ∧
        ((s.pred = none ∧ o.st.succ ≠ none) ∨
          ∃ pd, s.pred = some pd ∧
            peer_is_responsible pd.node_id s.self.node_id p.node_id = true))) ∧
    (o.st.succ = s.succ ∨
      (o.st.succ = some (peer_from_packet p) ∧
        (s.succ = none ∨
          ∃ sc, s.succ = some sc ∧
            peer_is_responsible s.self.node_id sc.node_id p.node_id = true))) ∧
    ((p.flags &&& E.PKT_FLAG_CTRL = 0 ∨ p.flags &&& E.PKT_FLAG_LKUP ≠ 0 ∨
        p.flags &&& E.PKT_FLAG_RPLY ≠ 0 ∨
        (p.flags &&& E.PKT_FLAG_JOIN = 0 ∧ p.flags &&& E.PKT_FLAG_STAB = 0 ∧
          p.flags &&& E.PKT_FLAG_NTFY = 0)) →
      o.st.pred = s.pred ∧ o.st.succ = s.succ) := by
  by_cases hc : p.flags &&& E.PKT_FLAG_CTRL = 0
  · rw [handle_packet_of_data E s c p hc] at h
    obtain ⟨h1, h2, h3, -⟩ := handle_packet_data_frame E s c p o h
    exact ⟨h1, Or.inl h2, Or.inl h3, fun _ => ⟨h2, h3⟩⟩
  rw [handle_packet_of_ctrl E s c p hc] at h
  by_cases hl : p.flags &&& E.PKT_FLAG_LKUP = 0
  swap
  · rw [handle_packet_ctrl_lkup E s c p hl] at h
    rw [(ctrl_lkup_state E s p o h).1]
    exact ⟨rfl, Or.inl rfl, Or.inl rfl, fun _ => ⟨rfl, rfl⟩⟩
  by_cases hr : p.flags &&& E.PKT_FLAG_RPLY = 0
  swap
  · rw [handle_packet_ctrl_rply E s c p hl hr] at h
    obtain ⟨h1, h2, h3, -⟩ := ctrl_rply_frame E s p o h
    exact ⟨h1, Or.inl h2, Or.inl h3, fun _ => ⟨h2, h3⟩⟩
  by_cases hj : p.flags &&& E.PKT_FLAG_JOIN = 0
  swap
  · rw [handle_packet_ctrl_join E s c p hl hr hj] at h
    obtain ⟨h1, -, h2, h3⟩ := ctrl_join_frame E s p o h
    refine ⟨h1, h2, ?_, ?_⟩
    · rcases h3 with h3 | h3
      · exact Or.inl h3
      · exact Or.inr ⟨h3.1, Or.inl h3.2⟩
    · rintro (h4 | h4 | h4 | h4)
      · exact absurd h4 hc
      · exact absurd hl h4
      · exact absurd hr h4
      · exact absurd h4.1 hj
  by_cases hs : p.flags &&& E.PKT_FLAG_STAB = 0
  swap
  · rw [handle_packet_ctrl_stab E s c p hl hr hj hs] at h
    obtain ⟨h1, -, h2, h3⟩ := ctrl_stab_frame E s c p o h
    refine ⟨h1, h2, ?_, ?_⟩
    · rcases h3 with h3 | h3
      · exact Or.inl h3
      · exact Or.inr ⟨h3.1, Or.inl h3.2⟩
    · rintro (h4 | h4 | h4 | h4)
      · exact absurd h4 hc
      · exact absurd hl h4
      · exact absurd hr h4
      · exact absurd h4.2.1 hs
  by_cases hn : p.flags &&& E.PKT_FLAG_NTFY = 0
  swap
  · rw [handle_packet_ctrl_ntfy E s c p hl hr hj hs hn] at h
    obtain ⟨h1, -, h2, h3⟩ := ctrl_ntfy_frame s p o h
    refine ⟨h1, Or.inl h2, h3, ?_⟩
    rintro (h4 | h4 | h4 | h4)
    · exact absurd h4 hc
    · exact absurd hl h4
    · exact absurd hr h4
    · exact absurd h4.2.2 hn
  by_cases hf : p.flags &&& E.PKT_FLAG_FNGR = 0
  swap
  · rw [handle_packet_ctrl_fngr E s c p hl hr hj hs hn hf] at h
    obtain ⟨h1, h2, h3, -⟩ := ctrl_fngr_frame E s c o h
    exact ⟨h1, Or.inl h2, Or.inl h3, fun _ => ⟨h2, h3⟩⟩
  rw [handle_packet_ctrl_other E s c p hl hr hj hs hn hf] at h
  cases h
  exact ⟨rfl, Or.inl rfl, Or.inl rfl, fun _ => ⟨rfl, rfl⟩⟩

theorem run_invariant (P : Node → Prop)
    (hstep : ∀ (E : Env) (s : Node) (c : client) (p : packet) (o : Outcome),
      P s → handle_packet E s c p = some o → P o.st)
    (inputs : List (Env × client × packet)) :
    ∀ s0 s, P s0 → run s0 inputs = some s → P s := by
  induction inputs with
  | nil =>
    intro s0 s h0 hrun
    simp only [run, Option.some.injEq] at hrun
    exact hrun ▸ h0
  | cons x rest ih =>
    intro s0 s h0 hrun
    simp only [run] at hrun
    cases hh : handle_packet x.1 s0 x.2.1 x.2.2 with
    | none => rw [hh] at hrun; exact absurd hrun (by simp)
    | some o =>
      rw [hh] at hrun
      exact ih o.st s (hstep _ _ _ _ _ h0 hh) hrun

/-! ## The finger-table invariant -/

theorem filled_set (l : List (Option peer)) (i : Nat) (x : peer) (hi : i < l.length)
    (hempty : l.getD i none = none) :
    ((l.set i (some x)).filter (fun slot => slot.isSome)).length
      = (l.filter (fun slot => slot.isSome)).length + 1 := by
  induction l generalizing i with
  | nil => simp at hi
  | cons a rest ih =>
    cases i with
    | zero =>
      have ha : a = none := by simpa using hempty
      subst ha
      simp
    | succ i =>
      have hi2 : i < rest.length := by simpa using hi
      have he2 : rest.getD i none = none := by simpa using hempty
      have := ih i hi2 he2
      cases a <;> simp [List.filter_cons, this]

theorem place_finger_inv (self_id : Nat) (t : finger_table) (p : packet)
    (hlen : t.ft.length = SIZE_OF_FT) (hcount : t.finger_count = filled_slots t)
    (hinit : t.state = FT_INIT) (hcnt : t.finger_count < SIZE_OF_FT) :
    (place_finger self_id t p).ft.length = SIZE_OF_FT ∧
      (place_finger self_id t p).finger_count = filled_slots (place_finger self_id t p) ∧
      ((place_finger self_id t p).state = FT_ACTIVE →
        (place_finger self_id t p).finger_count = SIZE_OF_FT) := by
  cases hfind : (List.range SIZE_OF_FT).find?
      (fun i => p.hash_id == finger_start self_id i && (t.ft.getD i none).isNone) with
  | none =>
    rw [place_finger_miss self_id t p hcnt hfind]
    refine ⟨hlen, hcount, ?_⟩
    intro h
    rw [hinit] at h
    exact absurd h (by decide)
  | some i =>
    obtain ⟨hi, hq, -⟩ := (find_range_spec _ SIZE_OF_FT).2 i hfind
    simp only [Bool.and_eq_true, beq_iff_eq, Option.isNone_iff_eq_none] at hq
    rw [place_finger_hit self_id t p i hfind]
    refine ⟨by simp [hlen], ?_, ?_⟩
    · simp only [filled_slots]
      rw [filled_set t.ft i (peer_from_packet p) (by rw [hlen]; exact hi) hq.2, hcount]
      rfl
    · by_cases h16 : t.finger_count + 1 = SIZE_OF_FT
      · intro _; exact h16
      · intro h
        simp only [h16, if_false, hinit] at h
        exact absurd h (by decide)

theorem ft_inv_step (E : Env) (s : Node) (c : client) (p : packet) (o : Outcome)
    (hinv : ft_inv s) (h : handle_packet E s c p = some o) : ft_inv o.st := by
  rcases handle_packet_fng_tab E s c p o h with h1 | ⟨t, ht, hinit, hcnt, h1⟩ | h1
  · intro t ht
    exact hinv t (h1 ▸ ht)
  · intro t2 ht2
    rw [h1] at ht2
    cases ht2
    obtain ⟨hlen, hcount, -⟩ := hinv t ht
    exact place_finger_inv s.self.node_id t p hlen hcount hinit hcnt
  · intro t2 ht2
    rw [h1] at ht2
    cases ht2
    refine ⟨by simp, by simp [filled_slots, SIZE_OF_FT], ?_⟩
    intro h
    exact absurd h (by decide)

theorem ft_inv_full (t : finger_table) (hlen : t.ft.length = SIZE_OF_FT)
    (hcount : t.finger_count = filled_slots t) (h16 : t.finger_count = SIZE_OF_FT) :
    ∀ i, i < SIZE_OF_FT → ∃ f, t.ft.getD i none = some f := by
  intro i hi
  have hall : ∀ a ∈ t.ft, (fun slot : Option peer => slot.isSome) a = true := by
    apply List.filter_length_eq_length.mp
    rw [hlen, ← h16, hcount]
    rfl
  have hil : i < t.ft.length := by rw [hlen]; exact hi
  have hmem : t.ft[i] ∈ t.ft := List.getElem_mem hil
  have hsome := hall _ hmem
  obtain ⟨f, hf⟩ := Option.isSome_iff_exists.mp hsome
  exact ⟨f, by rw [List.getD_eq_getElem?_getD, List.getElem?_eq_getElem hil, hf]; rfl⟩

/-- C14: in every state reached from a node without a finger table by
handling any sequence of packets (with any network outcomes), the finger
table, if there is one, has `finger_count` equal to the number of non-empty
slots and at most 16, and whenever its state is `ACTIVE` all 16 slots are
non-empty. -/
theorem finger_table_invariant (s0 s : Node) (inputs : List (Env × client × packet))
    (h0 : s0.fng_tab = none) (hrun : run s0 inputs = some s) :
    ∀ t, s.fng_tab = some t →
      t.finger_count = filled_slots t ∧ t.finger_count ≤ 16 ∧
      (t.state = FT_ACTIVE → ∀ i, i < 16 → ∃ f, t.ft.getD i none = some f) := by
  have hinv : ft_inv s :=
    run_invariant ft_inv ft_inv_step inputs s0 s
      (fun t ht => absurd (h0 ▸ ht) (by simp)) hrun
  intro t ht
  obtain ⟨hlen, hcount, hact⟩ := hinv t ht
  refine ⟨hcount, ?_, fun ha => ft_inv_full t hlen hcount (hact ha)⟩
  rw [hcount]
  have := List.length_filter_le (fun slot : Option peer => slot.isSome) t.ft
  rw [hlen] at this
  exact this

/-- C14 (witness): peer A (id 100, `succ = B`, no table) handles `FNGR` and
then the `RPLY` for 104 that names B: the run is defined and the resulting
table has count 1, which is its number of non-empty slots. -/
theorem finger_table_invariant_witness :
    ∃ s t, run (mkNode peerA (some peer10) (some peerB))
        [(env0, { socket := 7 }, ctrlPkt 0xC0 peerB 0),
         (env0, { socket := 8 }, ctrlPkt 0x82 peerB 104)] = some s ∧
      s.fng_tab = some t ∧ t.finger_count = 1 ∧
      t.finger_count = filled_slots t ∧ t.finger_count ≤ 16 ∧
      (t.state = FT_ACTIVE → ∀ i, i < 16 → ∃ f, t.ft.getD i none = some f) :=
  ⟨_, _, rfl, rfl, rfl,
    finger_table_invariant (mkNode peerA (some peer10) (some peerB)) _
      [(env0, { socket := 7 }, ctrlPkt 0xC0 peerB 0),
       (env0, { socket := 8 }, ctrlPkt 0x82 peerB 104)] rfl rfl _ rfl⟩

/-! ## RPLY: draining the pending requests -/

theorem get_requests_clear_same (rt : List (Nat × request)) (h : Nat) :
    get_requests (clear_requests rt h) h = [] := by
  simp [get_requests, clear_requests, List.filter_filter]

theorem get_requests_clear_other (rt : List (Nat × request)) (h h2 : Nat) (hne : h2 ≠ h) :
    get_requests (clear_requests rt h) h2 = get_requests rt h2 := by
  simp only [get_requests, clear_requests, List.filter_filter]
  congr 1
  apply List.filter_congr
  intro x _
  by_cases hx : x.1 = h2
  · simp [hx, hne]
  · simp [hx]

theorem ctrl_rply_out (E : Env) (s : Node) (p : packet) :
    ∃ o, ctrl_rply E s p = some o ∧ o.ret = CB_REMOVE_CLIENT ∧
      o.st.rt = clear_requests s.rt p.hash_id ∧ o.st.ht = s.ht ∧
      o.out = (get_requests s.rt p.hash_id).flatMap
        (fun r => [Event.proxy r.socket r.packet (peer_from_packet p)
                     (decide (E.peer_connect (peer_from_packet p) = 0)),
                   Event.close r.socket]) := by
  unfold ctrl_rply
  refine ⟨_, rfl, rfl, rfl, rfl, ?_⟩
  simp [proxy_request_out]

/-- C15: handling a `RPLY` packet with `hash_id = h` that names peer `n`
proxies each pending entry `(socket, packet)` of bucket `h` exactly once to
`n`, in the order the bucket lists them, and closes the entry's client socket
right after its proxy; afterwards the pending bucket of `h` is empty and the
buckets of all other hash_ids are unchanged.  The store is unchanged and
`CB_REMOVE_CLIENT` is returned. -/
theorem rply_drain_spec (E : Env) (s : Node) (c : client) (p : packet)
    (hc : p.flags &&& E.PKT_FLAG_CTRL ≠ 0)
    (hl : p.flags &&& E.PKT_FLAG_LKUP = 0) (hr : p.flags &&& E.PKT_FLAG_RPLY ≠ 0) :
    ∃ o, handle_packet E s c p = some o ∧ o.ret = CB_REMOVE_CLIENT ∧
      o.out = (get_requests s.rt p.hash_id).flatMap
        (fun r => [Event.proxy r.socket r.packet (peer_from_packet p)
                     (decide (E.peer_connect (peer_from_packet p) = 0)),
                   Event.close r.socket]) ∧
      get_requests o.st.rt p.hash_id = [] ∧
      (∀ h2, h2 ≠ p.hash_id → get_requests o.st.rt h2 = get_requests s.rt h2) ∧
      o.st.ht = s.ht := by
  rw [handle_packet_of_ctrl E s c p hc, handle_packet_ctrl_rply E s c p hl hr]
  obtain ⟨o, ho, hret, hrt, hht, hout⟩ := ctrl_rply_out E s p
  refine ⟨o, ho, hret, hout, ?_, ?_, hht⟩
  · rw [hrt]; exact get_requests_clear_same _ _
  · intro h2 hne
    rw [hrt]; exact get_requests_clear_other _ _ _ hne

/-- C15 (witness): spec scenario 3.  The peer with id 10 holds two pending
requests for hash 150 (sockets 7 and 9) and one for hash 160 (socket 8).  The
`RPLY` for 150 that names peer 200 proxies the entries of sockets 7 and 9, in
that order, to peer 200 and closes each socket; bucket 150 is empty afterwards
and bucket 160 is kept. -/
theorem rply_drain_spec_witness :
    ∃ o, handle_packet env0 nodePending { socket := 5 } (ctrlPkt 0x82 peerB 150) = some o ∧
      o.out = [Event.proxy 7 (dataPkt 0x01 [150] []) peerB true, Event.close 7,
               Event.proxy 9 (dataPkt 0x02 [150] [1]) peerB true, Event.close 9] ∧
      get_requests o.st.rt 150 = [] ∧
      get_requests o.st.rt 160
        = [{ socket := 8, packet := dataPkt 0x01 [160] [] }] := by
  obtain ⟨o, h, -, hout, hempty, hother, -⟩ :=
    rply_drain_spec env0 nodePending { socket := 5 } (ctrlPkt 0x82 peerB 150)
      (by decide) (by decide) (by decide)
  exact ⟨o, h, hout, hempty, hother 160 (by decide)⟩

/-! ## The callback status of control packets -/

theorem join_ret_send_status (E : Env) (s : Node) (c : client) (p : packet)
    (hc : p.flags &&& E.PKT_FLAG_CTRL ≠ 0)
    (hl : p.flags &&& E.PKT_FLAG_LKUP = 0) (hr : p.flags &&& E.PKT_FLAG_RPLY = 0)
    (hj : p.flags &&& E.PKT_FLAG_JOIN ≠ 0) (hpred : s.pred = none)
    (hconn : E.peer_connect (peer_from_packet p) = 0) :
    ∃ o, handle_packet E s c p = some o ∧
      o.ret = E.sendall_peer (peer_from_packet p) (build_ctrl_pkt E s.self E.PKT_FLAG_NTFY) := by
  rw [handle_packet_of_ctrl E s c p hc, handle_packet_ctrl_join E s c p hl hr hj]
  unfold ctrl_join
  simp [hpred, forward_ret, hconn]

/-- C16: a control packet whose handling ends in a successful send is not
answered with `CB_REMOVE_CLIENT`.  Solitary peer A (id 100) handling the `JOIN`
of B, peer A with `pred = succ = B` handling a `STAB` of B, and peer A handling
a `FNGR`, with every connect succeeding and every `sendall` returning 0: in all
three cases `handle_packet` returns the send status 0, which is `CB_OK`. -/
theorem ctrl_returns_send_status :
    (ctrlPkt 0x90 peerB 0).flags &&& env0.PKT_FLAG_CTRL ≠ 0 ∧
    (handle_packet env0 (mkNode peerA none none) { socket := 7 } (ctrlPkt 0x90 peerB 0)).map
        (fun o => o.ret) = some CB_OK ∧
    (handle_packet env0 (mkNode peerA (some peerB) (some peerB)) { socket := 7 }
        (ctrlPkt 0x84 peerB 0)).map (fun o => o.ret) = some CB_OK ∧
    (handle_packet env0 (mkNode peerA (some peerB) (some peerB)) { socket := 7 }
        (ctrlPkt 0xC0 peerB 0)).map (fun o => o.ret) = some CB_OK ∧
    CB_OK ≠ CB_REMOVE_CLIENT := by
  decide

/-! ## Updates of the ring state -/

/-- C17: for every packet that `handle_packet` handles: `self` is unchanged;
if `pred` was set before and differs afterwards, then the identifier
`p.node_id` carried by the packet satisfies
`responsible(old pred.id, self.id, p.node_id)` and the new `pred` is the peer
named by the packet; if `succ` was set before and differs afterwards, then
`responsible(self.id, old succ.id, p.node_id)` and the new `succ` is the peer
named by the packet.  Data packets and `LKUP`, `RPLY`, `FNGR`, `FACK` packets
(any control packet that is `LKUP` or `RPLY` or none of `JOIN`, `STAB`,
`NTFY`) change neither `pred` nor `succ`. -/
theorem ring_update_spec (E : Env) (s : Node) (c : client) (p : packet) (o : Outcome)
    (h : handle_packet E s c p = some o) :
    o.st.self = s.self ∧
    (∀ pd, s.pred = some pd → o.st.pred ≠ s.pred →
      peer_is_responsible pd.node_id s.self.node_id p.node_id = true ∧
      o.st.pred = some (peer_from_packet p)) ∧
    (∀ sc, s.succ = some sc → o.st.succ ≠ s.succ →
      peer_is_responsible s.self.node_id sc.node_id p.node_id = true ∧
      o.st.succ = some (peer_from_packet p)) ∧
    ((p.flags &&& E.PKT_FLAG_CTRL = 0 ∨ p.flags &&& E.PKT_FLAG_LKUP ≠ 0 ∨
        p.flags &&& E.PKT_FLAG_RPLY ≠ 0 ∨
        (p.flags &&& E.PKT_FLAG_JOIN = 0 ∧ p.flags &&& E.PKT_FLAG_STAB = 0 ∧
          p.flags &&& E.PKT_FLAG_NTFY = 0)) →
      o.st.pred = s.pred ∧ o.st.succ = s.succ) := by
  obtain ⟨h1, h2, h3, h4⟩ := handle_packet_ring E s c p o h
  refine ⟨h1, ?_, ?_, h4⟩
  · intro pd hpd hne
    rcases h2 with h2 | ⟨h2, h2b | ⟨pd2, hpd2, hresp⟩⟩
    · exact absurd h2 hne
    · rw [hpd] at h2b
      exact absurd h2b.1 (by simp)
    · rw [hpd] at hpd2
      cases hpd2
      exact ⟨hresp, h2⟩
  · intro sc hsc hne
    rcases h3 with h3 | ⟨h3, h3b | ⟨sc2, hsc2, hresp⟩⟩
    · exact absurd h3 hne
    · rw [hsc] at h3b
      exact absurd h3b (by simp)
    · rw [hsc] at hsc2
      cases hsc2
      exact ⟨hresp, h3⟩

/-- C17 (witness): peer A (id 100) with `pred` = peer 10 and `succ` = B
handles the `JOIN` of a peer with id 50: the handler returns, `pred` changes,
and indeed `responsible(10, 100, 50)` and the new `pred` is the joiner. -/
theorem ring_update_spec_witness :
    ∃ o, handle_packet env0 (mkNode peerA (some peer10) (some peerB)) { socket := 7 }
        (ctrlPkt 0x90 { node_id := 50, ip := 2130706433, port := 5002 } 0) = some o ∧
      o.st.pred ≠ some peer10 ∧
      peer_is_responsible 10 100 50 = true ∧
      o.st.pred = some { node_id := 50, ip := 2130706433, port := 5002 } ∧
      o.st.succ = some peerB ∧ o.st.self = peerA := by
  have h0 : handle_packet env0 (mkNode peerA (some peer10) (some peerB)) { socket := 7 }
      (ctrlPkt 0x90 { node_id := 50, ip := 2130706433, port := 5002 } 0)
      = some { ret := 0,
               st := { mkNode peerA (some peer10) (some peerB) with
                       pred := some { node_id := 50, ip := 2130706433, port := 5002 } },
               out := [Event.send { node_id := 50, ip := 2130706433, port := 5002 }
                         (ctrlPkt 0x88 peerA 0) true] } := by
    decide
  obtain ⟨hself, hpred, -, -⟩ := ring_update_spec env0 _ _ _ _ h0
  have hne : (some { node_id := 50, ip := 2130706433, port := 5002 } : Option peer)
      ≠ some peer10 := by decide
  exact ⟨_, h0, hne, (hpred peer10 rfl hne).1, (hpred peer10 rfl hne).2, rfl, hself⟩

/-! ## Finger starts -/

theorem finger_start_inj (self_id i j : Nat) (hi : i < 16) (hj : j < 16)
    (h : finger_start self_id i = finger_start self_id j) : i = j := by
  unfold finger_start SIZE_OF_FT at h
  have hmod : (2 : Nat) ^ i ≡ 2 ^ j [MOD 2 ^ 16] := Nat.ModEq.add_left_cancel' self_id h
  have hi2 : (2 : Nat) ^ i < 2 ^ 16 := Nat.pow_lt_pow_right (by norm_num) hi
  have hj2 : (2 : Nat) ^ j < 2 ^ 16 := Nat.pow_lt_pow_right (by norm_num) hj
  have heq : (2 : Nat) ^ i = 2 ^ j := by
    have := hmod
    unfold Nat.ModEq at this
    rwa [Nat.mod_eq_of_lt hi2, Nat.mod_eq_of_lt hj2] at this
  exact Nat.pow_right_injective (le_refl 2) heq

theorem find_perm_unique (q : Nat → Bool) (l1 l2 : List Nat) (hperm : l1.Perm l2)
    (huniq : ∀ a b, a ∈ l2 → b ∈ l2 → q a = true → q b = true → a = b) :
    l1.find? q = l2.find? q := by
  cases h1 : l1.find? q with
  | none =>
    cases h2 : l2.find? q with
    | none => rfl
    | some b =>
      have hb := List.find?_some h2
      have hmem : b ∈ l1 := hperm.mem_iff.mpr (List.mem_of_find?_eq_some h2)
      have hnone := List.find?_eq_none.mp h1 b hmem
      exact absurd hb hnone
  | some a =>
    have ha := List.find?_some h1
    have hamem : a ∈ l2 := hperm.mem_iff.mp (List.mem_of_find?_eq_some h1)
    cases h2 : l2.find? q with
    | none => exact absurd ha (List.find?_eq_none.mp h2 a hamem)
    | some b =>
      have hb := List.find?_some h2
      rw [huniq a b hamem (List.mem_of_find?_eq_some h2) ha hb]

/-- C18: for every `self` id and all `i ≠ j` in `[0, 16)` the finger starts
`(self.id + 2^i) mod 2^16` and `(self.id + 2^j) mod 2^16` are different.  Hence
at most one slot's start equals a given `hash_id`, and the slot that the
placement loop of the `RPLY` handler selects does not depend on the order in
which the 16 slots are scanned: every permutation of the slot indices selects
the same slot. -/
theorem finger_starts_distinct (self_id : Nat) :
    (∀ i j, i < 16 → j < 16 → i ≠ j →
      (self_id + 2 ^ i) % 2 ^ 16 ≠ (self_id + 2 ^ j) % 2 ^ 16) ∧
    (∀ hash_id i j, i < 16 → j < 16 → finger_start self_id i = hash_id →
      finger_start self_id j = hash_id → i = j) ∧
    (∀ (t : finger_table) (p : packet) (order : List Nat),
      order.Perm (List.range SIZE_OF_FT) →
      order.find?
          (fun i => p.hash_id == finger_start self_id i && (t.ft.getD i none).isNone)
        = (List.range SIZE_OF_FT).find?
          (fun i => p.hash_id == finger_start self_id i && (t.ft.getD i none).isNone)) := by
  refine ⟨?_, ?_, ?_⟩
  · intro i j hi hj hne h
    exact hne (finger_start_inj self_id i j hi hj h)
  · intro hash_id i j hi hj h1 h2
    exact finger_start_inj self_id i j hi hj (h1.trans h2.symm)
  · intro t p order hperm
    apply find_perm_unique _ _ _ hperm
    intro a b ha hb hqa hqb
    have ha16 : a < 16 := by simpa [SIZE_OF_FT] using ha
    have hb16 : b < 16 := by simpa [SIZE_OF_FT] using hb
    simp only [Bool.and_eq_true, beq_iff_eq] at hqa hqb
    exact finger_start_inj self_id a b ha16 hb16 (hqa.1.symm.trans hqb.1)

/-- C18 (witness): for the peer with id 100 the starts of slots 2 and 5 are
104 and 132, and only slot 2 has start 104. -/
theorem finger_starts_distinct_witness :
    (100 + 2 ^ 2) % 2 ^ 16 ≠ (100 + 2 ^ 5) % 2 ^ 16 ∧
    (∀ j, j < 16 → finger_start 100 j = 104 → 2 = j) :=
  ⟨(finger_starts_distinct 100).1 2 5 (by decide) (by decide) (by decide),
   fun j hj h => (finger_starts_distinct 100).2.1 104 2 j (by decide) hj (by decide) h⟩

/-! ## The finger chosen for a LKUP and the ring order -/

/-- C19: the finger chosen by the `ACTIVE` lookup is not always the closest
predecessor of the hash.  The peer with id 40000 (ring 30000, 40000, 45000,
49000, 60000, table `ACTIVE`) receives `LKUP(50000)`, owned neither by itself
nor by its `succ`.  The search picks slot 15, whose start `7232` (wrapped past
0) is not on the clockwise arc from 40000 to 50000, and the packet is
forwarded to the peer of that slot (id 30000); slot 13, whose start 48192 is
on that arc, between 40000 and 50000, is passed over. -/
theorem lkup_finger_ignores_wrap :
    peer_is_responsible 30000 40000 50000 = false ∧
    peer_is_responsible 40000 45000 50000 = false ∧
    closest_pred_idx 40000 50000 = some 15 ∧
    finger_start 40000 15 = 7232 ∧
    peer_is_responsible 40000 50000 (finger_start 40000 15) = false ∧
    finger_start 40000 13 = 48192 ∧
    peer_is_responsible 40000 50000 (finger_start 40000 13) = true ∧
    handle_packet env0 nodeWrap { socket := 7 } (ctrlPkt 0x81 (peerId 45000) 50000) =
      some { ret := CB_REMOVE_CLIENT, st := nodeWrap,
             out := [Event.send (peerId 30000) (ctrlPkt 0x81 (peerId 45000) 50000) true] } := by
  decide

/-! ## The ring invariant: `pred` set implies `succ` set -/

theorem ring_inv_step (E : Env) (s : Node) (c : client) (p : packet) (o : Outcome)
    (hinv : s.pred ≠ none → s.succ ≠ none) (h : handle_packet E s c p = some o) :
    o.st.pred ≠ none → o.st.succ ≠ none := by
  obtain ⟨-, h2, h3, -⟩ := handle_packet_ring E s c p o h
  intro hp
  have hsucc_keep : s.succ ≠ none → o.st.succ ≠ none := by
    intro hs
    rcases h3 with h3 | ⟨h3, -⟩
    · rw [h3]; exact hs
    · rw [h3]; simp
  rcases h2 with h2 | ⟨-, ⟨-, h2b⟩ | ⟨pd, hpd, -⟩⟩
  · exact hsucc_keep (hinv (h2 ▸ hp))
  · exact h2b
  · exact hsucc_keep (hinv (by rw [hpd]; simp))

theorem ring_mono_step (E : Env) (s : Node) (c : client) (p : packet) (o : Outcome)
    (h : handle_packet E s c p = some o) :
    (s.pred ≠ none → o.st.pred ≠ none) ∧ (s.succ ≠ none → o.st.succ ≠ none) := by
  obtain ⟨-, h2, h3, -⟩ := handle_packet_ring E s c p o h
  refine ⟨?_, ?_⟩
  · intro hp
    rcases h2 with h2 | ⟨h2, -⟩
    · rw [h2]; exact hp
    · rw [h2]; simp
  · intro hs
    rcases h3 with h3 | ⟨h3, -⟩
    · rw [h3]; exact hs
    · rw [h3]; simp

theorem handle_packet_data_total (E : Env) (s : Node) (c : client) (p : packet) (pd sc : peer)
    (hpred : s.pred = some pd) (hsucc : s.succ = some sc) :
    ∃ o, handle_packet_data E s c p = some o := by
  unfold handle_packet_data
  simp only [hpred, hsucc, lookup_peer]
  split
  · exact ⟨_, rfl⟩
  · split <;> exact ⟨_, rfl⟩

theorem ctrl_join_forward (E : Env) (s : Node) (p : packet) (pd sc : peer)
    (hpred : s.pred = some pd) (hsucc : s.succ = some sc)
    (h1 : peer_is_responsible pd.node_id s.self.node_id p.node_id = false) :
    ctrl_join E s p =
      some { ret := (forward E sc p).1, st := s,
             out := [Event.send sc p (decide (E.peer_connect sc = 0))] } := by
  unfold ctrl_join
  simp [hpred, hsucc, h1, forward_out]

theorem ctrl_lkup_total (E : Env) (s : Node) (p : packet) (pd sc : peer)
    (hpred : s.pred = some pd) (hsucc : s.succ = some sc) (hinv : ft_inv s) :
    ∃ o, ctrl_lkup E s p = some o := by
  by_cases h1 : peer_is_responsible pd.node_id s.self.node_id p.hash_id = true
  · exact ⟨_, ctrl_lkup_own E s p pd hpred h1⟩
  simp only [Bool.not_eq_true] at h1
  by_cases h2 : peer_is_responsible s.self.node_id sc.node_id p.hash_id = true
  · exact ⟨_, ctrl_lkup_succ E s p pd sc hpred hsucc h1 h2⟩
  simp only [Bool.not_eq_true] at h2
  by_cases hact : ∃ t, s.fng_tab = some t ∧ t.state = FT_ACTIVE
  · obtain ⟨t, hf, ha⟩ := hact
    obtain ⟨hlen, hcount, h16⟩ := hinv t hf
    cases hidx : closest_pred_idx s.self.node_id p.hash_id with
    | none => exact ⟨_, ctrl_lkup_finger_none E s p pd sc t hpred hsucc h1 h2 hf ha hidx⟩
    | some idx =>
      obtain ⟨f, hslot⟩ :=
        ft_inv_full t hlen hcount (h16 ha) idx (closest_pred_idx_lt _ _ _ hidx)
      exact ⟨_, ctrl_lkup_finger E s p pd sc f t idx hpred hsucc h1 h2 hf ha hidx hslot⟩
  · refine ⟨_, ctrl_lkup_naive E s p pd sc hpred hsucc h1 h2 ?_⟩
    intro t hf ha
    exact hact ⟨t, hf, ha⟩

/-- C20: in every state `s` reached by handling any sequence of packets from a
node whose `pred` is unset (so in particular from the initial state, `pred`
and `succ` both unset), `pred` set implies `succ` set.
Consequently, when `pred` is set: a data packet is handled with a defined
result (`succ` is never read through `NULL`); a `JOIN` whose joiner is not in
`(pred, self]` is forwarded unchanged to `succ`; and, when the run started
without a finger table, a `LKUP` packet is handled with a defined result.
Along any further run neither `pred` nor `succ` returns to unset once set. -/
theorem ring_invariant (s0 s : Node) (inputs : List (Env × client × packet))
    (hp0 : s0.pred = none) (hrun : run s0 inputs = some s) :
    (s.pred ≠ none → s.succ ≠ none) ∧
    (∀ (E : Env) (c : client) (p : packet) (pd : peer), s.pred = some pd →
      p.flags &&& E.PKT_FLAG_CTRL = 0 →
      ∃ sc o, s.succ = some sc ∧ handle_packet E s c p = some o) ∧
    (∀ (E : Env) (c : client) (p : packet) (pd : peer), s.pred = some pd →
      p.flags &&& E.PKT_FLAG_CTRL ≠ 0 → p.flags &&& E.PKT_FLAG_LKUP = 0 →
      p.flags &&& E.PKT_FLAG_RPLY = 0 → p.flags &&& E.PKT_FLAG_JOIN ≠ 0 →
      peer_is_responsible pd.node_id s.self.node_id p.node_id = false →
      ∃ sc o, s.succ = some sc ∧ handle_packet E s c p = some o ∧ o.st = s ∧
        o.out = [Event.send sc p (decide (E.peer_connect sc = 0))]) ∧
    (∀ (E : Env) (c : client) (p : packet) (pd : peer), s.pred = some pd →
      p.flags &&& E.PKT_FLAG_CTRL ≠ 0 → p.flags &&& E.PKT_FLAG_LKUP ≠ 0 →
      s0.fng_tab = none →
      ∃ sc o, s.succ = some sc ∧ handle_packet E s c p = some o) ∧
    (∀ (more : List (Env × client × packet)) (s2 : Node), run s more = some s2 →
      (s.pred ≠ none → s2.pred ≠ none) ∧ (s.succ ≠ none → s2.succ ≠ none)) := by
  have hinv : s.pred ≠ none → s.succ ≠ none :=
    run_invariant (fun x => x.pred ≠ none → x.succ ≠ none) ring_inv_step inputs s0 s
      (fun h => absurd hp0 h) hrun
  have hsucc : ∀ pd, s.pred = some pd → ∃ sc, s.succ = some sc := by
    intro pd hpd
    exact Option.ne_none_iff_exists'.mp (hinv (by rw [hpd]; simp))
  refine ⟨hinv, ?_, ?_, ?_, ?_⟩
  · intro E c p pd hpd hc
    obtain ⟨sc, hsc⟩ := hsucc pd hpd
    obtain ⟨o, ho⟩ := handle_packet_data_total E s c p pd sc hpd hsc
    exact ⟨sc, o, hsc, by rw [handle_packet_of_data E s c p hc]; exact ho⟩
  · intro E c p pd hpd hc hl hr hj h1
    obtain ⟨sc, hsc⟩ := hsucc pd hpd
    have hj2 := ctrl_join_forward E s p pd sc hpd hsc h1
    rw [← handle_packet_ctrl_join E s c p hl hr hj, ← handle_packet_of_ctrl E s c p hc] at hj2
    exact ⟨sc, _, hsc, hj2, rfl, rfl⟩
  · intro E c p pd hpd hc hl hf0
    obtain ⟨sc, hsc⟩ := hsucc pd hpd
    have hft : ft_inv s :=
      run_invariant ft_inv ft_inv_step inputs s0 s
        (fun t ht => absurd (hf0 ▸ ht) (by simp)) hrun
    obtain ⟨o, ho⟩ := ctrl_lkup_total E s p pd sc hpd hsc hft
    exact ⟨sc, o, hsc, by
      rw [handle_packet_of_ctrl E s c p hc, handle_packet_ctrl_lkup E s c p hl]; exact ho⟩
  · intro more s2 hrun2
    exact run_invariant
      (fun x => (s.pred ≠ none → x.pred ≠ none) ∧ (s.succ ≠ none → x.succ ≠ none))
      (fun E x c p o hx h =>
        ⟨fun hp => (ring_mono_step E x c p o h).1 (hx.1 hp),
         fun hs => (ring_mono_step E x c p o h).2 (hx.2 hs)⟩)
      more s s2 ⟨id, id⟩ hrun2

/-- C20 (witness): solitary peer A (id 100) handles the `JOIN` of B and then a
`NTFY` that names peer 10: the run is defined, and afterwards `pred = B` and
`succ` is set. -/
theorem ring_invariant_witness :
    ∃ s, run (mkNode peerA none none)
        [(env0, { socket := 7 }, ctrlPkt 0x90 peerB 0),
         (env0, { socket := 8 }, ctrlPkt 0x88 peer10 0)] = some s ∧
      s.pred = some peerB ∧ s.succ ≠ none :=
  ⟨_, rfl, rfl,
    (ring_invariant (mkNode peerA none none) _
      [(env0, { socket := 7 }, ctrlPkt 0x90 peerB 0),
       (env0, { socket := 8 }, ctrlPkt 0x88 peer10 0)] rfl rfl).1 (by decide)⟩

/-! ## The two-peer ring -/

theorem responsible_cover (a b h : Nat) :
    peer_is_responsible a b h = true ∨ peer_is_responsible b a h = true := by
  unfold peer_is_responsible
  by_cases hab : a = b
  · simp [hab]
  · have hba : ¬ b = a := fun e => hab e.symm
    simp only [hab, hba, if_false]
    by_cases hlt : a < b
    · have hnlt : ¬ b < a := by omega
      simp only [hlt, hnlt, if_true, if_false, decide_eq_true_eq]
      omega
    · have hlt2 : b < a := by omega
      simp only [hlt, hlt2, if_true, if_false, decide_eq_true_eq]
      omega

theorem handle_own_request_out (E : Env) (s : Node) (c : client) (p : packet) :
    (handle_own_request E s c p).st.rt = s.rt ∧
      ∃ rsp, (handle_own_request E s c p).out = [Event.reply c.socket rsp] := by
  unfold handle_own_request
  split
  · split <;> exact ⟨rfl, _, rfl⟩
  · split
    · exact ⟨rfl, _, rfl⟩
    · split <;> exact ⟨rfl, _, rfl⟩

/-- C21: on a node with `pred` and `succ` set and `pred.id = succ.id` (a
two-peer ring, or both equal to `self.id`), every `hash_id` `h` satisfies
`responsible(pred.id, self.id, h)` or `responsible(self.id, succ.id, h)`.
Hence `handle_packet_data` returns `CB_REMOVE_CLIENT`, leaves the pending table
unchanged and its only network action is the reply to the client or the proxy
to `succ` (no `LKUP` is sent); and the `LKUP` handler, whatever the finger
table is, makes exactly one send, a `CTRL|RPLY` packet to the originator that
names `self` or `succ`, and forwards nothing. -/
theorem two_peer_ring_spec (E : Env) (s : Node) (c : client) (p : packet) (pd sc : peer)
    (hpred : s.pred = some pd) (hsucc : s.succ = some sc)
    (hid : pd.node_id = sc.node_id) :
    (∀ h, peer_is_responsible pd.node_id s.self.node_id h = true ∨
      peer_is_responsible s.self.node_id sc.node_id h = true) ∧
    (∃ o, handle_packet_data E s c p = some o ∧ o.ret = CB_REMOVE_CLIENT ∧
      o.st.rt = s.rt ∧
      ((∃ rsp, o.out = [Event.reply c.socket rsp]) ∨
        o.out = [Event.proxy c.socket p sc (decide (E.peer_connect sc = 0))])) ∧
    (p.flags &&& E.PKT_FLAG_CTRL ≠ 0 → p.flags &&& E.PKT_FLAG_LKUP ≠ 0 →
      ∃ n, (n = s.self ∨ n = sc) ∧
        handle_packet E s c p =
          some { ret := CB_REMOVE_CLIENT, st := s,
                 out := [Event.send (peer_from_packet p)
                   { flags := E.PKT_FLAG_CTRL ||| E.PKT_FLAG_RPLY, hash_id := p.hash_id,
                     node_id := n.node_id, node_ip := n.ip, node_port := n.port,
                     key := [], value := [] }
                   (decide (E.peer_connect (peer_from_packet p) = 0))] }) := by
  have hcover : ∀ h, peer_is_responsible pd.node_id s.self.node_id h = true ∨
      peer_is_responsible s.self.node_id sc.node_id h = true := by
    intro h
    rw [← hid]
    exact responsible_cover _ _ h
  refine ⟨hcover, ?_, ?_⟩
  · by_cases h1 : peer_is_responsible pd.node_id s.self.node_id
        (E.pseudo_hash p.key % 65536) = true
    · refine ⟨_, handle_packet_data_own E s c p pd hpred h1, handle_own_request_ret E s c p,
        (handle_own_request_out E s c p).1, Or.inl (handle_own_request_out E s c p).2⟩
    · have h2 := (hcover (E.pseudo_hash p.key % 65536)).resolve_left h1
      simp only [Bool.not_eq_true] at h1
      have hh : handle_packet_data E s c p =
          some { ret := CB_REMOVE_CLIENT, st := s,
                 out := [Event.proxy c.socket p sc (decide (E.peer_connect sc = 0))] } := by
        simp [handle_packet_data, hpred, hsucc, h1, h2, proxy_request_out, proxy_request_ret]
      exact ⟨_, hh, rfl, rfl, Or.inr rfl⟩
  · intro hc hl
    rw [handle_packet_of_ctrl E s c p hc, handle_packet_ctrl_lkup E s c p hl]
    by_cases h1 : peer_is_responsible pd.node_id s.self.node_id p.hash_id = true
    · exact ⟨s.self, Or.inl rfl, by rw [ctrl_lkup_own E s p pd hpred h1, answer_lookup_eq]⟩
    · have h2 := (hcover p.hash_id).resolve_left h1
      simp only [Bool.not_eq_true] at h1
      exact ⟨sc, Or.inr rfl, by
        rw [ctrl_lkup_succ E s p pd sc hpred hsucc h1 h2, answer_lookup_eq]⟩

/-- C21 (witness): spec scenario 2.  Peer B (id 200) with `pred = succ = A`
(id 100) receives `LKUP(50)` that originates at peer 10: 50 is in `(200, 100]`,
so B answers with a `RPLY` that names A, and forwards nothing. -/
theorem two_peer_ring_spec_witness :
    (peer_is_responsible 100 200 50 = true ∨ peer_is_responsible 200 100 50 = true) ∧
    ∃ n, (n = peerB ∨ n = peerA) ∧
      handle_packet env0 (mkNode peerB (some peerA) (some peerA)) { socket := 7 }
          (ctrlPkt 0x81 peer10 50) =
        some { ret := CB_REMOVE_CLIENT, st := mkNode peerB (some peerA) (some peerA),
               out := [Event.send peer10
                 { flags := 0x82, hash_id := 50, node_id := n.node_id, node_ip := n.ip,
                   node_port := n.port, key := [], value := [] } true] } :=
  ⟨(two_peer_ring_spec env0 (mkNode peerB (some peerA) (some peerA)) { socket := 7 }
      (ctrlPkt 0x81 peer10 50) peerA peerA rfl rfl rfl).1 50,
   (two_peer_ring_spec env0 (mkNode peerB (some peerA) (some peerA)) { socket := 7 }
      (ctrlPkt 0x81 peer10 50) peerA peerA rfl rfl rfl).2.2 (by decide) (by decide)⟩

/-! ## A lookup that the finger table drops -/

/-- C22: when the finger table is `ACTIVE`, the `LKUP` packet `p` is owned
neither by `self` nor by `succ`, and no `i < 16` has
`finger_start(self.id, i) < p.hash_id`, the handler performs no network action
at all (no `RPLY`, no forward to a finger or to `succ`), leaves the whole node
unchanged and returns `CB_REMOVE_CLIENT`. -/
theorem lkup_dropped_spec (E : Env) (s : Node) (c : client) (p : packet) (pd sc : peer)
    (t : finger_table) (hpred : s.pred = some pd) (hsucc : s.succ = some sc)
    (hc : p.flags &&& E.PKT_FLAG_CTRL ≠ 0) (hl : p.flags &&& E.PKT_FLAG_LKUP ≠ 0)
    (h1 : peer_is_responsible pd.node_id s.self.node_id p.hash_id = false)
    (h2 : peer_is_responsible s.self.node_id sc.node_id p.hash_id = false)
    (hf : s.fng_tab = some t) (hact : t.state = FT_ACTIVE)
    (hnone : ∀ i, i < 16 → ¬ finger_start s.self.node_id i < p.hash_id) :
    handle_packet E s c p = some { ret := CB_REMOVE_CLIENT, st := s, out := [] } := by
  rw [handle_packet_of_ctrl E s c p hc, handle_packet_ctrl_lkup E s c p hl]
  apply ctrl_lkup_finger_none E s p pd sc t hpred hsucc h1 h2 hf hact
  cases hidx : closest_pred_idx s.self.node_id p.hash_id with
  | none => rfl
  | some r =>
    obtain ⟨hr, hlt, -⟩ := closest_pred_idx_some _ _ _ hidx
    exact absurd hlt (hnone r hr)

/-- C22 (witness): such inputs exist.  The peer with id 100, `pred` id 50,
`succ` id 200 and an `ACTIVE` finger table receives `LKUP(30)`: neither
`(50, 100]` nor `(100, 200]` contains 30 and every start is at least 101, so
the lookup is dropped without any send. -/
theorem lkup_dropped_spec_witness :
    nodeDrop.self.node_id = 100 ∧ nodeDrop.pred = some (peerId 50) ∧
    nodeDrop.succ = some peerB ∧
    peer_is_responsible 50 100 30 = false ∧ peer_is_responsible 100 200 30 = false ∧
    handle_packet env0 nodeDrop { socket := 7 } (ctrlPkt 0x81 peer10 30) =
      some { ret := CB_REMOVE_CLIENT, st := nodeDrop, out := [] } :=
  ⟨rfl, rfl, rfl, by decide, by decide,
    lkup_dropped_spec env0 nodeDrop { socket := 7 } (ctrlPkt 0x81 peer10 30) (peerId 50) peerB
      { state := FT_ACTIVE, finger_count := 16,
        ft := List.replicate 7 (some peerB) ++ List.replicate 9 (some (peerId 50)) }
      rfl rfl (by decide) (by decide) (by decide) (by decide) rfl rfl
      (by intro i hi; interval_cases i <;> decide)⟩

/-! ## JOIN -/

/-- C6: on every node `s` that the peer can be in (reached by handling any
sequence of packets from a node whose `pred` is unset, so in particular from
the initial state) and for every `JOIN` control packet `p` that names joiner
`j`.  If `pred` is unset: afterwards `pred = j`, `succ = j` if `succ` was unset
and unchanged otherwise, and one `CTRL|NTFY` packet naming `self` is sent to
`j`.  Else if `responsible(pred.id, self.id, p.node_id)`: afterwards
`pred = j`, `succ` is unchanged, and one `CTRL|NTFY` packet naming `self` is
sent to `j`.  Otherwise the node (`pred` and `succ` included) is unchanged,
`succ` is set, and the unchanged packet `p` is forwarded to `succ`.  In every
case `self`, the finger table, the store and the pending table are
unchanged. -/
theorem join_spec (E : Env) (s0 s : Node) (inputs : List (Env × client × packet))
    (c : client) (p : packet)
    (hp0 : s0.pred = none) (hrun : run s0 inputs = some s)
    (hc : p.flags &&& E.PKT_FLAG_CTRL ≠ 0)
    (hl : p.flags &&& E.PKT_FLAG_LKUP = 0) (hr : p.flags &&& E.PKT_FLAG_RPLY = 0)
    (hj : p.flags &&& E.PKT_FLAG_JOIN ≠ 0) :
    ∃ o, handle_packet E s c p = some o ∧
      o.st.self = s.self ∧ o.st.fng_tab = s.fng_tab ∧ o.st.ht = s.ht ∧ o.st.rt = s.rt ∧
      (s.pred = none →
        o.st.pred = some (peer_from_packet p) ∧
        (s.succ = none → o.st.succ = some (peer_from_packet p)) ∧
        (∀ sc, s.succ = some sc → o.st.succ = some sc) ∧
        o.out = [Event.send (peer_from_packet p)
          { flags := E.PKT_FLAG_CTRL ||| E.PKT_FLAG_NTFY, hash_id := 0,
            node_id := s.self.node_id, node_ip := s.self.ip, node_port := s.self.port,
            key := [], value := [] }
          (decide (E.peer_connect (peer_from_packet p) = 0))]) ∧
      (∀ pd, s.pred = some pd →
        peer_is_responsible pd.node_id s.self.node_id p.node_id = true →
        o.st.pred = some (peer_from_packet p) ∧ o.st.succ = s.succ ∧
        o.out = [Event.send (peer_from_packet p)
          { flags := E.PKT_FLAG_CTRL ||| E.PKT_FLAG_NTFY, hash_id := 0,
            node_id := s.self.node_id, node_ip := s.self.ip, node_port := s.self.port,
            key := [], value := [] }
          (decide (E.peer_connect (peer_from_packet p) = 0))]) ∧
      (∀ pd, s.pred = some pd →
        peer_is_responsible pd.node_id s.self.node_id p.node_id = false →
        o.st = s ∧
        ∃ sc, s.succ = some sc ∧
          o.out = [Event.send sc p (decide (E.peer_connect sc = 0))]) := by
  have hinv : s.pred ≠ none → s.succ ≠ none :=
    run_invariant (fun x => x.pred ≠ none → x.succ ≠ none) ring_inv_step inputs s0 s
      (fun h => absurd hp0 h) hrun
  clear hrun hp0
  rw [handle_packet_of_ctrl E s c p hc, handle_packet_ctrl_join E s c p hl hr hj]
  rcases s with ⟨self, pred, succ, psucc, fng, ht, rt⟩
  unfold ctrl_join
  cases pred with
  | none =>
    cases succ <;> simp [forward_out, build_ctrl_pkt, packet_new, peer_get_ip]
  | some pd =>
    by_cases h1 : peer_is_responsible pd.node_id self.node_id p.node_id = true
    · simp [h1, forward_out, build_ctrl_pkt, packet_new, peer_get_ip]
    · cases succ with
      | none => exact absurd rfl (hinv (by simp))
      | some sc => simp [h1, forward_out]

/-- C6 (witness): spec scenario 4 and its continuation.  Solitary A (id 100)
handles the `JOIN` of B (id 200) and is then in the state `pred = succ = B`.
There it receives the `JOIN` of a peer with id 150: 150 is not in `(200, 100]`,
so the node is unchanged and the unchanged packet is forwarded to `succ = B`. -/
theorem join_spec_witness :
    run (mkNode peerA none none) [(env0, { socket := 7 }, ctrlPkt 0x90 peerB 0)]
      = some (mkNode peerA (some peerB) (some peerB)) ∧
    peer_is_responsible 200 100 150 = false ∧
    ∃ o, handle_packet env0 (mkNode peerA (some peerB) (some peerB)) { socket := 8 }
        (ctrlPkt 0x90 (peerId 150) 0) = some o ∧
      o.st = mkNode peerA (some peerB) (some peerB) ∧
      o.out = [Event.send peerB (ctrlPkt 0x90 (peerId 150) 0) true] := by
  refine ⟨by decide, by decide, ?_⟩
  obtain ⟨o, h, -, -, -, -, -, -, h3⟩ :=
    join_spec env0 (mkNode peerA none none) (mkNode peerA (some peerB) (some peerB))
      [(env0, { socket := 7 }, ctrlPkt 0x90 peerB 0)] { socket := 8 }
      (ctrlPkt 0x90 (peerId 150) 0) rfl (by decide) (by decide) (by decide) (by decide)
      (by decide)
  obtain ⟨hst, sc, hsc, hout⟩ := h3 peerB rfl (by decide)
  have hsc2 : sc = peerB := by
    have : (some peerB : Option peer) = some sc := hsc
    exact (Option.some.inj this).symm
  subst hsc2
  exact ⟨o, h, hst, hout⟩

end Chord
